import Mathlib

/-!
# TechDraw `DrawViewSection` — a shallow embedding

Source: `src/Mod/TechDraw/App/DrawViewSection.cpp`.

Conventions of the embedding.

* A C++ `double` is a rational number: arithmetic is exact, there is no NaN,
  no infinity and no rounding.
* A nullable OpenCascade handle (`TopoDS_Shape`, `TopoDS_Face`, ...) is an
  `Option`; `none` is the null handle.
* A shape is observed only through `TopExp_Explorer(shape, TopAbs_FACE)`, so a
  non-null shape is the list of its faces in enumeration order.
* Calls into the BRep library and into classes whose code is in other files
  (`BRepAlgoAPI_Cut`, `HLRBRep_Algo`, `EdgeWalker`, `findCentroid`, ...) are
  fields of an environment record `Env`; every theorem quantifies over it.
* `execute` returns the return statement it left through (`Exit`), the view
  after the call and the console / property events it emitted.
-/

namespace DrawViewSection

/-! ## Geometry primitives -/

/-- A `Base::Vector3d`. -/
structure Vector3d where
  x : ℚ
  y : ℚ
  z : ℚ
  deriving DecidableEq, Repr

namespace Vector3d

/-- Componentwise sum (`operator+`). -/
def add (a b : Vector3d) : Vector3d := ⟨a.x + b.x, a.y + b.y, a.z + b.z⟩

/-- Componentwise difference (`operator-`). -/
def sub (a b : Vector3d) : Vector3d := ⟨a.x - b.x, a.y - b.y, a.z - b.z⟩

/-- Scaling by a number (`operator*` with a scalar). -/
def scale (a : Vector3d) (k : ℚ) : Vector3d := ⟨a.x * k, a.y * k, a.z * k⟩

/-- Dot product (`operator*` on two vectors). -/
def dot (a b : Vector3d) : ℚ := a.x * b.x + a.y * b.y + a.z * b.z

/-- Cross product. -/
def cross (a b : Vector3d) : Vector3d :=
  ⟨a.y * b.z - a.z * b.y, a.z * b.x - a.x * b.z, a.x * b.y - a.y * b.x⟩

/-- Squared length (`Sqr`). -/
def Sqr (a : Vector3d) : ℚ := a.dot a

/-- Modelled from the spec: the closed-form projection of a point onto the
plane through `base` with normal `norm` (`Base::Vector3d::ProjectToPlane`,
whose code is in `Base/Vector3D.h`, not in this file). -/
def ProjectToPlane (p base norm : Vector3d) : Vector3d :=
  p.sub (norm.scale ((p.sub base).dot norm / norm.Sqr))

/-- Modelled from the spec: the signed distance of a point to the plane
through `base` with normal `norm` (`Base::Vector3d::DistanceToPlane`, whose
code is in `Base/Vector3D.h`). `execute` passes a `gp_Dir`, a vector of
length one, so the distance is the dot product with the normal. -/
def DistanceToPlane (p base norm : Vector3d) : ℚ := (p.sub base).dot norm

end Vector3d

/-- A `Base::BoundBox3d`: six public members, no invariant between them. -/
structure BoundBox3d where
  MinX : ℚ
  MinY : ℚ
  MinZ : ℚ
  MaxX : ℚ
  MaxY : ℚ
  MaxZ : ℚ
  deriving DecidableEq, Repr

/-- Modelled from the spec: the centre of a bounding box, `(Min+Max)/2` on
each axis (`Base::BoundBox3d::GetCenter`, whose code is in
`Base/BoundBox.h`). -/
def BoundBox3d.GetCenter (bb : BoundBox3d) : Vector3d :=
  ⟨(bb.MaxX + bb.MinX) / 2, (bb.MaxY + bb.MinY) / 2, (bb.MaxZ + bb.MinZ) / 2⟩

/-- `DrawViewSection::isReallyInBox` (lines 452-461). -/
def isReallyInBox (v : Vector3d) (bb : BoundBox3d) : Bool :=
  if v.x ≤ bb.MinX ∨ v.x ≥ bb.MaxX then false
  else if v.y ≤ bb.MinY ∨ v.y ≥ bb.MaxY then false
  else if v.z ≤ bb.MinZ ∨ v.z ≥ bb.MaxZ then false
  else true

/-! ## Shapes, planes and the projected faces -/

/-- What `BRepAdaptor_Surface` reports for a face: `GetType()` and, when the
type is `GeomAbs_Plane`, the location and the unit axis of `Plane()`. -/
inductive Surface where
  | Plane (Location : Vector3d) (Axis : Vector3d)
  | Other (kind : Nat)
  deriving DecidableEq, Repr

/-- A face of a 3D shape. -/
structure Face where
  id : Nat
  surface : Surface
  deriving DecidableEq, Repr

/-- A `TopoDS_Shape` (also a `TopoDS_Compound`): null, or its faces in the
order `TopExp_Explorer(shape, TopAbs_FACE)` enumerates them. -/
abbrev TopoDS_Shape := Option (List Face)

/-- The faces a `TopExp_Explorer` finds; a null shape has none. -/
def facesOf : TopoDS_Shape → List Face
  | none => []
  | some fs => fs

/-- A `gp_Pln`: location, the two in-plane axes and the unit normal. -/
structure gp_Pln where
  Location : Vector3d
  XDirection : Vector3d
  YDirection : Vector3d
  Axis : Vector3d
  deriving DecidableEq, Repr

/-- OpenCascade `gp_Pln::Contains(P, tol)`: the distance of `P` to the plane,
`|Axis . (P - Location)|`, is at most `tol`. -/
def gp_Pln.Contains (pln : gp_Pln) (P : Vector3d) (tol : ℚ) : Bool :=
  decide (|pln.Axis.dot (P.sub pln.Location)| ≤ tol)

/-- OpenCascade `gp_Dir::IsParallel(other, tol)`: `angle <= tol` or
`pi - angle <= tol`. For unit vectors this is `|a x b| <= sin tol`; the model
takes `sinTol`, the sine of the angular tolerance, and compares squares. -/
def gp_Dir_IsParallel (a b : Vector3d) (sinTol : ℚ) : Bool :=
  decide ((a.cross b).Sqr ≤ sinTol ^ 2)

/-- An edge of the 2D hard-edge compound. -/
structure Edge where
  id : Nat
  deriving DecidableEq, Repr

/-- A closed planar wire rebuilt by the edge walker. -/
structure Wire where
  id : Nat
  deriving DecidableEq, Repr

/-- What `BRepBuilderAPI_MakeFace` was given: the wire of its constructor and
the wires passed to `Add`, in call order. -/
structure ProjectedFace where
  outer : Wire
  holes : List Wire
  deriving DecidableEq, Repr

/-- A `TopoDS_Face` returned by `projectFace`; `none` is the null face. -/
abbrev TopoDS_Face := Option ProjectedFace

/-- The square polygon of lines 185-194. -/
structure Polygon where
  pn1 : Vector3d
  pn2 : Vector3d
  pn3 : Vector3d
  pn4 : Vector3d
  deriving DecidableEq, Repr

/-- The arguments of `BRepPrimAPI_MakePrism`: the base and the extrusion. -/
structure Prism where
  base : Polygon
  extrusion : Vector3d
  deriving DecidableEq, Repr

/-- An exception leaving a function. -/
inductive Raised where
  | BaseException (msg : String)
  | StandardFailure (msg : String)
  deriving DecidableEq, Repr

/-- An `App::DocumentObjectExecReturn`. -/
inductive ExecReturn where
  | StdReturn
  | Error (why : String)
  deriving DecidableEq, Repr

/-- The `TechDrawGeometry::GeometryObject` of the view; `geometry` stands for
the outline geometry it holds. -/
structure GeometryObject where
  tolerance : ℚ
  scale : ℚ
  geometry : Nat
  deriving DecidableEq, Repr

/-- What a link property can point to. -/
inductive DocumentObject where
  | PartFeature (shape : TopoDS_Shape) (boundBox : BoundBox3d)
  | DrawViewPart (SymbolSection : String)
  | Other
  deriving DecidableEq, Repr

/-- The state of a `DrawViewSection`: its properties and members. `XDir`
is what `getValidXDir()` returns. -/
structure View where
  NameInDocument : String
  Source : Option DocumentObject
  BaseView : Option DocumentObject
  SectionNormal : Vector3d
  SectionOrigin : Vector3d
  Direction : Vector3d
  XDir : Vector3d
  Scale : ℚ
  Tolerance : ℚ
  Label : String
  geometryObject : GeometryObject
  sectionFaces : Option (List TopoDS_Face)
  touched : Bool
  deriving DecidableEq, Repr

/-- What `execute` emits: console warnings and property writes
(`Console().Log` lines are not recorded). -/
inductive Event where
  | Warning (msg : String)
  | SetSectionOrigin (v : Vector3d)
  | SetLabel (s : String)
  | Touch
  deriving DecidableEq, Repr

/-- The library and the sibling classes `execute` calls into. -/
structure Env where
  /-- The X axis, Y axis and unit normal `gp_Pln(gp_Pnt, gp_Dir)` derives
  from the `SectionNormal` vector. -/
  planeAxes : Vector3d → Vector3d × Vector3d × Vector3d
  /-- The linear tolerance `Precision::Confusion()`. -/
  Confusion : ℚ
  /-- The sine of `Precision::Angular()`. -/
  sinAngular : ℚ
  /-- Whether `BRepBuilderAPI_MakeFace(mkPoly.Wire()).Face()` is null. -/
  makeFaceIsNull : Polygon → Bool
  /-- The cutter `BRepAlgoAPI_Cut`: `none` when `IsDone()` is false. -/
  cut : TopoDS_Shape → Prism → Option TopoDS_Shape
  /-- The centroid `TechDrawGeometry::findCentroid`; an error is a raised
  `Standard_Failure`. -/
  findCentroid : TopoDS_Shape → Vector3d → Vector3d → Except String Vector3d
  /-- The transform `TechDrawGeometry::mirrorShape`. -/
  mirrorShape : TopoDS_Shape → Vector3d → ℚ → Except String TopoDS_Shape
  /-- The parent call `DrawViewPart::buildGeometryObject`: the geometry
  object it leaves and the `Standard_Failure` it raised, if any. -/
  buildGeometryObject :
    GeometryObject → TopoDS_Shape → Vector3d → GeometryObject × Option String
  /-- The compile-time switch `MOD_TECHDRAW_HANDLE_FACES`. -/
  handleFaces : Bool
  /-- The parent call `DrawViewPart::extractFaces`. -/
  extractFaces : GeometryObject → GeometryObject × Option String
  /-- The hidden-line run of `projectFace` (lines 342-356): the edges a
  `TopExp_Explorer` finds in `VCompound()`, null ones included. -/
  hlrVCompound :
    Face → Vector3d → Vector3d → Vector3d → Except String (List (Option Edge))
  /-- The edge walker: `loadEdges; perform; getResultNoDups`. -/
  edgeWalker : List Edge → List Wire
  /-- The wire sort `EdgeWalker::sortStrip`. -/
  sortStrip : List Wire → Bool → List Wire
  /-- What `DrawView::execute()` returns. -/
  drawViewExecute : ExecReturn

/-! ## The section plane and the intersector -/

/-- `DrawViewSection::getSectionPlane` (lines 265-271): the plane through the
current `SectionOrigin` with the axes derived from `SectionNormal`. -/
def getSectionPlane (env : Env) (v : View) : gp_Pln :=
  let plnPnt := v.SectionOrigin
  let plnNorm := v.SectionNormal
  { Location := plnPnt
    XDirection := (env.planeAxes plnNorm).1
    YDirection := (env.planeAxes plnNorm).2.1
    Axis := (env.planeAxes plnNorm).2.2 }

/-- The loop body of `findSectionPlaneIntersections` (lines 290-300): the
compound after one more face. -/
def sectionStep (env : Env) (plnSection : gp_Pln) (result : List Face) (face : Face) :
    List Face :=
  match face.surface with
  | Surface.Plane loc axis =>
    if plnSection.Contains loc env.Confusion &&
        gp_Dir_IsParallel axis plnSection.Axis env.sinAngular then
      result ++ [face]
    else result
  | Surface.Other _ => result

/-- `DrawViewSection::findSectionPlaneIntersections` (lines 274-303). -/
def findSectionPlaneIntersections (env : Env) (v : View) (shape : TopoDS_Shape) :
    TopoDS_Shape :=
  match shape with
  | none => none
  | some faces =>
    let plnSection := getSectionPlane env v
    some (faces.foldl (sectionStep env plnSection) [])

/-! ## The face projector -/

/-- `DrawViewSection::projectFace` (lines 333-449). -/
def projectFace (env : Env) (face : Option Face) (faceCenter : Vector3d)
    (direction : Vector3d) (xaxis : Vector3d) : Except Raised TopoDS_Face :=
  match face with
  | none =>
    Except.error (Raised.BaseException "DrawViewSection::projectFace - input Face is NULL")
  | some f =>
    match env.hlrVCompound f faceCenter direction xaxis with
    | Except.error m => Except.error (Raised.StandardFailure m)
    | Except.ok hardEdges =>
      let faceEdges := hardEdges.filterMap id
      let fw := env.edgeWalker faceEdges
      if !fw.isEmpty then
        let sortedWires := env.sortStrip fw true
        match sortedWires with
        | [] => Except.ok none
        | front :: rest => Except.ok (some { outer := front, holes := rest })
      else Except.ok none

/-! ## The cutting prism -/

/-- The corner points of the bounding box, in the order of lines 157-165. -/
def bboxCorners (bb : BoundBox3d) : List Vector3d :=
  [⟨bb.MinX, bb.MinY, bb.MinZ⟩, ⟨bb.MaxX, bb.MinY, bb.MinZ⟩,
   ⟨bb.MinX, bb.MaxY, bb.MinZ⟩, ⟨bb.MaxX, bb.MaxY, bb.MinZ⟩,
   ⟨bb.MinX, bb.MinY, bb.MaxZ⟩, ⟨bb.MaxX, bb.MinY, bb.MaxZ⟩,
   ⟨bb.MinX, bb.MaxY, bb.MaxZ⟩, ⟨bb.MaxX, bb.MaxY, bb.MaxZ⟩]

/-- The running maxima of the loop of lines 167-179. -/
structure Extents where
  uMax : ℚ
  vMax : ℚ
  wMax : ℚ
  dMax : ℚ
  deriving DecidableEq, Repr

/-- One pass of the loop body (lines 170-178) for the corner `c`. -/
def extentStep (plnPnt plnNorm : Vector3d) (acc : Extents) (c : Vector3d) : Extents :=
  let pnt := c.ProjectToPlane plnPnt plnNorm
  let dist := c.DistanceToPlane plnPnt plnNorm
  { uMax := max acc.uMax |plnPnt.x - pnt.x|
    vMax := max acc.vMax |plnPnt.y - pnt.y|
    wMax := max acc.wMax |plnPnt.z - pnt.z|
    dMax := max acc.dMax dist }

/-- The loop of lines 167-179: all four maxima start at 0. -/
def cornerExtents (plnPnt plnNorm : Vector3d) (pnts : List Vector3d) : Extents :=
  pnts.foldl (extentStep plnPnt plnNorm) ⟨0, 0, 0, 0⟩

/-- Lines 182-183: the largest of `uMax`, `vMax`, `wMax`. -/
def Extents.maxParm (e : Extents) : ℚ := max (max e.uMax e.vMax) e.wMax

/-- Lines 185-188: the four corners of the square around `origin`. -/
def squarePolygon (origin xAxis yAxis : Vector3d) (maxParm : ℚ) : Polygon :=
  { pn1 := (origin.add (xAxis.scale maxParm)).add (yAxis.scale maxParm)
    pn2 := (origin.add (xAxis.scale maxParm)).add (yAxis.scale (-maxParm))
    pn3 := (origin.add (xAxis.scale (-maxParm))).add (yAxis.scale (-maxParm))
    pn4 := (origin.add (xAxis.scale (-maxParm))).add (yAxis.scale maxParm) }

/-- What lines 134-201 of `execute` compute before the cut. -/
structure CutSetup where
  /-- The view after the containment check of lines 149-154. -/
  view : View
  /-- The warnings and the property write of lines 150-153. -/
  events : List Event
  /-- The plane `pln` of line 134. -/
  pln : gp_Pln
  /-- The point `plnPnt` after line 154. -/
  plnPnt : Vector3d
  /-- The running maxima after the loop. -/
  extents : Extents
  /-- The polygon and the extrusion vector handed to `MakePrism`. -/
  prism : Prism

/-- Lines 134-201 of `execute`, for a source whose bounding box is `bb`. -/
def cutSetup (env : Env) (v : View) (bb : BoundBox3d) : CutSetup :=
  let pln := getSectionPlane env v
  let xAxis := pln.XDirection
  let yAxis := pln.YDirection
  let origin := pln.Location
  let plnNormal := pln.Axis
  let tmp1 := v.SectionOrigin
  let plnNorm := plnNormal
  let inBox := isReallyInBox tmp1 bb
  let plnPnt := if inBox then tmp1 else bb.GetCenter
  let view := if inBox then v else { v with SectionOrigin := bb.GetCenter }
  let events :=
    if inBox then []
    else [Event.Warning
            ("DVS: Section Plane doesn't intersect part in " ++ v.NameInDocument ++ "\n"),
          Event.Warning "DVS: Using center of bounding box.\n",
          Event.SetSectionOrigin bb.GetCenter]
  let extents := cornerExtents plnPnt plnNorm (bboxCorners bb)
  let maxParm := extents.maxParm
  { view := view
    events := events
    pln := pln
    plnPnt := plnPnt
    extents := extents
    prism :=
      { base := squarePolygon origin xAxis yAxis maxParm
        extrusion := pln.Axis.scale extents.dMax } }

/-! ## The pipeline -/

/-- The loop of lines 237-245: project every face of the mirrored section
compound, adding each result to the new compound; the first exception ends
the loop. -/
def projectFaces (env : Env) (center direction xaxis : Vector3d) :
    List Face → Except Raised (List TopoDS_Face)
  | [] => Except.ok []
  | face :: rest =>
    match projectFace env (some face) center direction xaxis with
    | Except.error e => Except.error e
    | Except.ok pFace =>
      match projectFaces env center direction xaxis rest with
      | Except.error e => Except.error e
      | Except.ok done => Except.ok (pFace :: done)

/-- The body of the `try` block (lines 216-246) on the cut result `rawShape`:
the view it leaves and the exception it raised, if any. -/
def tryBlock (env : Env) (v : View) (rawShape : TopoDS_Shape) : View × Option Raised :=
  match env.findCentroid rawShape v.Direction v.XDir with
  | Except.error m => (v, some (Raised.StandardFailure m))
  | Except.ok inputCenter =>
    match env.mirrorShape rawShape inputCenter v.Scale with
    | Except.error m => (v, some (Raised.StandardFailure m))
    | Except.ok mirroredShape =>
      match env.buildGeometryObject v.geometryObject mirroredShape inputCenter with
      | (go, some m) => ({ v with geometryObject := go }, some (Raised.StandardFailure m))
      | (go, none) =>
        match (if env.handleFaces then env.extractFaces go else (go, none)) with
        | (go2, some m) => ({ v with geometryObject := go2 }, some (Raised.StandardFailure m))
        | (go2, none) =>
          let v2 := { v with geometryObject := go2 }
          let sectionCompound := findSectionPlaneIntersections env v2 rawShape
          match env.mirrorShape sectionCompound inputCenter v.Scale with
          | Except.error m => (v2, some (Raised.StandardFailure m))
          | Except.ok mirroredSection =>
            match projectFaces env inputCenter v.Direction v.XDir (facesOf mirroredSection) with
            | Except.error e => (v2, some e)
            | Except.ok newFaces => ({ v2 with sectionFaces := some newFaces }, none)

/-- The return statement `execute` leaves through. -/
inductive Exit where
  /-- Line 120: `return DrawView::execute()` when a link is missing. -/
  | NoSourceOrLink
  /-- Line 124. -/
  | SourceNotPart
  /-- Line 126. -/
  | BaseNotDrawViewPart
  /-- Line 132. -/
  | ShapeEmpty
  /-- Line 200. -/
  | ProjFaceNull
  /-- Line 209. -/
  | CutFailed
  /-- Line 250: a `Standard_Failure` caught by the handler. -/
  | BRepFailure (msg : String)
  /-- Line 262: `return DrawView::execute()` at the end. -/
  | Done
  /-- No return: an exception the handler does not catch leaves `execute`. -/
  | Uncaught (e : Raised)
  deriving DecidableEq, Repr

/-- Whether the return statement builds an error object of its own
(`return new App::DocumentObjectExecReturn(...)`). -/
def Exit.isFailure : Exit → Bool
  | Exit.SourceNotPart => true
  | Exit.BaseNotDrawViewPart => true
  | Exit.ShapeEmpty => true
  | Exit.ProjFaceNull => true
  | Exit.CutFailed => true
  | Exit.BRepFailure _ => true
  | _ => false

/-- The object a return statement hands back; `none` when an exception left
`execute` instead. -/
def Exit.toReturn (env : Env) : Exit → Option ExecReturn
  | Exit.NoSourceOrLink => some env.drawViewExecute
  | Exit.SourceNotPart => some (ExecReturn.Error "Source object is not a Part object")
  | Exit.BaseNotDrawViewPart =>
    some (ExecReturn.Error "BaseView object is not a DrawViewPart object")
  | Exit.ShapeEmpty => some (ExecReturn.Error "Linked shape object is empty")
  | Exit.ProjFaceNull => some (ExecReturn.Error "DrawViewSection - Projected face is NULL")
  | Exit.CutFailed => some (ExecReturn.Error "Section cut has failed")
  | Exit.BRepFailure msg =>
    some (ExecReturn.Error ("DVS building Section shape failed: " ++ msg))
  | Exit.Done => some env.drawViewExecute
  | Exit.Uncaught _ => none

/-- The outcome of one `execute`. -/
structure Outcome where
  exit : Exit
  view : View
  events : List Event

/-- Lines 254-262: the label, `touch()` and the final return. -/
def finish (v : View) (symbol : String) (events : List Event) : Outcome :=
  let symbolText := "Section " ++ symbol ++ "-" ++ symbol
  if symbolText ≠ v.Label then
    { exit := Exit.Done
      view := { v with Label := symbolText, touched := true }
      events := events ++ [Event.SetLabel symbolText, Event.Touch] }
  else
    { exit := Exit.Done
      view := { v with touched := true }
      events := events ++ [Event.Touch] }

/-- Lines 213-214: `setTolerance(Tolerance)` and `setScale(Scale)` on the
geometry object. -/
def configureGeometry (v : View) : View :=
  { v with
    geometryObject := { v.geometryObject with tolerance := v.Tolerance, scale := v.Scale } }

/-- Lines 211-262 of `execute`, after a cut that is done: the geometry
object is configured, the `try` block runs on `rawShape`, a caught
`Standard_Failure` returns the wrapped message, otherwise the label is
derived and the parent recompute is returned. -/
def afterCut (env : Env) (s : CutSetup) (symbol : String) (rawShape : TopoDS_Shape) :
    Outcome :=
  match tryBlock env (configureGeometry s.view) rawShape with
  | (v2, some (Raised.StandardFailure msg)) =>
    { exit := Exit.BRepFailure msg, view := v2, events := s.events }
  | (v2, some e) => { exit := Exit.Uncaught e, view := v2, events := s.events }
  | (v2, none) => finish v2 symbol s.events

/-- `DrawViewSection::execute` (lines 114-263). -/
def execute (env : Env) (v : View) : Outcome :=
  match v.Source, v.BaseView with
  | some link, some base =>
    match link with
    | DocumentObject.PartFeature shape bb =>
      match base with
      | DocumentObject.DrawViewPart symbol =>
        match shape with
        | none => { exit := Exit.ShapeEmpty, view := v, events := [] }
        | some partFaces =>
          let s := cutSetup env v bb
          if env.makeFaceIsNull s.prism.base then
            { exit := Exit.ProjFaceNull, view := s.view, events := s.events }
          else
            let myShape : TopoDS_Shape := some partFaces
            match env.cut myShape s.prism with
            | none => { exit := Exit.CutFailed, view := s.view, events := s.events }
            | some rawShape => afterCut env s symbol rawShape
      | _ => { exit := Exit.BaseNotDrawViewPart, view := v, events := [] }
    | _ => { exit := Exit.SourceNotPart, view := v, events := [] }
  | _, _ => { exit := Exit.NoSourceOrLink, view := v, events := [] }

/-! ## Specification-side definitions -/

/-- The solid prism as a point set: the points `O + a X + b Y + t N` with
`|a| <= s`, `|b| <= s` and `0 <= t <= L`. -/
def inPrism (O X Y N : Vector3d) (s L : ℚ) (p : Vector3d) : Prop :=
  ∃ a b t : ℚ, |a| ≤ s ∧ |b| ≤ s ∧ 0 ≤ t ∧ t ≤ L ∧
    p = ((O.add (X.scale a)).add (Y.scale b)).add (N.scale t)

/-- A point of the closed bounding box. -/
def inBoundBox (bb : BoundBox3d) (p : Vector3d) : Prop :=
  bb.MinX ≤ p.x ∧ p.x ≤ bb.MaxX ∧ bb.MinY ≤ p.y ∧ p.y ≤ bb.MaxY ∧
    bb.MinZ ≤ p.z ∧ p.z ≤ bb.MaxZ

/-- The frame of a section plane: unit normal, orthonormal in-plane axes,
`X x Y = N`. -/
def isFrame (X Y N : Vector3d) : Prop :=
  N.Sqr = 1 ∧ X.Sqr = 1 ∧ Y.Sqr = 1 ∧ X.dot Y = 0 ∧ X.dot N = 0 ∧ Y.dot N = 0 ∧
    X.cross Y = N

/-- The acceptance test of the intersector in the words of the spec: the
face is planar, the section plane contains the location of its plane within
the linear tolerance, and the axis of its plane is parallel to the axis of
the section plane within the angular tolerance. -/
def acceptsFace (env : Env) (plnSection : gp_Pln) (f : Face) : Bool :=
  match f.surface with
  | Surface.Plane loc axis =>
    decide (|plnSection.Axis.dot (loc.sub plnSection.Location)| ≤ env.Confusion) &&
      decide ((axis.cross plnSection.Axis).Sqr ≤ env.sinAngular ^ 2)
  | Surface.Other _ => false

/-- The centre of the square base: the midpoint of two opposite corners. -/
def Polygon.centre (p : Polygon) : Vector3d := (p.pn1.add p.pn3).scale (1 / 2)

/-- The origin the pipeline works with after the containment check: the
`SectionOrigin` of the view if it is strictly inside the box, else the centre
of the box. -/
def effectiveOrigin (v : View) (bb : BoundBox3d) : Vector3d :=
  if isReallyInBox v.SectionOrigin bb then v.SectionOrigin else bb.GetCenter

/-- The running maximum of `g` over a list of points, from a start value. -/
def foldMax (g : Vector3d → ℚ) (init : ℚ) (pnts : List Vector3d) : ℚ :=
  pnts.foldl (fun m c => max m (g c)) init

/-- A corner of the box: each coordinate is the `Min` or the `Max` of the
box on its axis. -/
def isCorner (bb : BoundBox3d) (c : Vector3d) : Prop :=
  (c.x = bb.MinX ∨ c.x = bb.MaxX) ∧ (c.y = bb.MinY ∨ c.y = bb.MaxY) ∧
    (c.z = bb.MinZ ∨ c.z = bb.MaxZ)

/-- The maximum of `g` over the eight corners of the box, in the words of
the spec: the eight corners are written out and there is no start value. -/
def maxOverCorners (g : Vector3d → ℚ) (bb : BoundBox3d) : ℚ :=
  max (max (max (max (max (max (max
    (g ⟨bb.MinX, bb.MinY, bb.MinZ⟩)
    (g ⟨bb.MaxX, bb.MinY, bb.MinZ⟩))
    (g ⟨bb.MinX, bb.MaxY, bb.MinZ⟩))
    (g ⟨bb.MaxX, bb.MaxY, bb.MinZ⟩))
    (g ⟨bb.MinX, bb.MinY, bb.MaxZ⟩))
    (g ⟨bb.MaxX, bb.MinY, bb.MaxZ⟩))
    (g ⟨bb.MinX, bb.MaxY, bb.MaxZ⟩))
    (g ⟨bb.MaxX, bb.MaxY, bb.MaxZ⟩)

/-- The in-plane extent of a corner `c` about `O`: the largest of
`|O.x - c'.x|`, `|O.y - c'.y|`, `|O.z - c'.z|`, with `c'` the projection of
`c` onto the plane `(O, N)`. -/
def inPlaneExtent (O N c : Vector3d) : ℚ :=
  max (max |O.x - (c.ProjectToPlane O N).x| |O.y - (c.ProjectToPlane O N).y|)
    |O.z - (c.ProjectToPlane O N).z|

/-- The reference half-side `s`: the largest in-plane extent of a corner. -/
def refMaxParm (O N : Vector3d) (bb : BoundBox3d) : ℚ :=
  maxOverCorners (inPlaneExtent O N) bb

/-- The reference length `L`: the largest signed distance of a corner to
the plane `(O, N)`. -/
def refDMax (O N : Vector3d) (bb : BoundBox3d) : ℚ :=
  maxOverCorners (fun c => c.DistanceToPlane O N) bb

/-- The signed distance of `c` to the plane through `O` with unit normal
`N`, in coordinates: `(c - O) . N`. -/
def specDistance (O N c : Vector3d) : ℚ :=
  (c.x - O.x) * N.x + (c.y - O.y) * N.y + (c.z - O.z) * N.z

/-- The projection of `c` onto the plane through `O` with unit normal `N`,
in coordinates: `c - ((c - O) . N) N`. -/
def specProjection (O N c : Vector3d) : Vector3d :=
  ⟨c.x - specDistance O N c * N.x, c.y - specDistance O N c * N.y,
    c.z - specDistance O N c * N.z⟩

/-- The largest of `|O.x - c'.x|`, `|O.y - c'.y|`, `|O.z - c'.z|` for the
projection `c'` of `c`, in coordinates. -/
def specExtent (O N c : Vector3d) : ℚ :=
  max (max |O.x - (specProjection O N c).x| |O.y - (specProjection O N c).y|)
    |O.z - (specProjection O N c).z|

/-- The corner of the box farthest along `N`: on each axis `Max` where the
component of `N` is not negative, `Min` where it is. -/
def farCorner (N : Vector3d) (bb : BoundBox3d) : Vector3d :=
  ⟨if 0 ≤ N.x then bb.MaxX else bb.MinX,
   if 0 ≤ N.y then bb.MaxY else bb.MinY,
   if 0 ≤ N.z then bb.MaxZ else bb.MinZ⟩

/-! ## Concrete inputs used by the closed statements -/

/-- A library in which every call succeeds and returns its input: the plane
axes are the coordinate axes, the cut is done and returns the part, no call
raises, the edge walker finds no wire. -/
def plainEnv : Env :=
  { planeAxes := fun _ => (⟨1, 0, 0⟩, ⟨0, 1, 0⟩, ⟨0, 0, 1⟩)
    Confusion := 1 / 10000000
    sinAngular := 1 / 1000000000000
    makeFaceIsNull := fun _ => false
    cut := fun shape _ => some shape
    findCentroid := fun _ _ _ => Except.ok ⟨0, 0, 0⟩
    mirrorShape := fun shape _ _ => Except.ok shape
    buildGeometryObject := fun go _ _ => (go, none)
    handleFaces := false
    extractFaces := fun go => (go, none)
    hlrVCompound := fun _ _ _ _ => Except.ok []
    edgeWalker := fun _ => []
    sortStrip := fun ws _ => ws
    drawViewExecute := ExecReturn.StdReturn }

/-- A section view of a part with bounding box `bb` and no faces, cut
along `+Z`, with the given `SectionOrigin`. -/
def viewOf (bb : BoundBox3d) (origin : Vector3d) : View :=
  { NameInDocument := "Section"
    Source := some (DocumentObject.PartFeature (some []) bb)
    BaseView := some (DocumentObject.DrawViewPart "A")
    SectionNormal := ⟨0, 0, 1⟩
    SectionOrigin := origin
    Direction := ⟨0, 0, 1⟩
    XDir := ⟨1, 0, 0⟩
    Scale := 1
    Tolerance := 1 / 100
    Label := "Section A-A"
    geometryObject := ⟨0, 0, 0⟩
    sectionFaces := none
    touched := false }

/-- The box `[0,1]^3`. -/
def unitBox : BoundBox3d := ⟨0, 0, 0, 1, 1, 1⟩

/-- The bounding box of a flat part lying in the plane `z = 0`. -/
def flatBox : BoundBox3d := ⟨0, 0, 0, 1, 1, 0⟩

/-- The cube `[-1,1]^3`. -/
def cube2 : BoundBox3d := ⟨-1, -1, -1, 1, 1, 1⟩

/-- The unit cube centred at the origin. -/
def centredCube : BoundBox3d := ⟨-1 / 2, -1 / 2, -1 / 2, 1 / 2, 1 / 2, 1 / 2⟩

/-- The library of `plainEnv` with the plane axes OpenCascade derives from
the normal `(3/5, 4/5, 0)`: `X = (4/5, -3/5, 0)` and `Y = N x X = (0, 0, -1)`. -/
def obliqueEnv : Env :=
  { plainEnv with planeAxes := fun _ => (⟨4 / 5, -3 / 5, 0⟩, ⟨0, 0, -1⟩, ⟨3 / 5, 4 / 5, 0⟩) }

/-- A section of a part filling `[-1,1]^3`, through its centre, with the
oblique normal `(3/5, 4/5, 0)`. -/
def obliqueView : View := { viewOf cube2 ⟨0, 0, 0⟩ with SectionNormal := ⟨3 / 5, 4 / 5, 0⟩ }

/-- The library of `plainEnv` with the plane axes OpenCascade derives from
the normal `(1, 0, 0)`: `X = (0, 0, 1)` and `Y = N x X = (0, -1, 0)`. -/
def xNormalEnv : Env :=
  { plainEnv with planeAxes := fun _ => (⟨0, 0, 1⟩, ⟨0, -1, 0⟩, ⟨1, 0, 0⟩) }

/-- The unit cube centred at the origin, cut along `+X`, with the section
origin `(10, 0, 0)` outside the part. -/
def outsideView : View := { viewOf centredCube ⟨10, 0, 0⟩ with SectionNormal := ⟨1, 0, 0⟩ }

/-- The library of `plainEnv` with a cutter that reports the cut as not
done. -/
def cutFailEnv : Env := { plainEnv with cut := fun _ _ => none }

/-- The library of `plainEnv` with a centroid computation that raises a
`Standard_Failure`. -/
def raisingEnv : Env :=
  { plainEnv with findCentroid := fun _ _ _ => Except.error "centroid" }

/-- A section view whose `Source` link is not set yet. -/
def unlinkedView : View := { viewOf unitBox ⟨0, 0, 0⟩ with Source := none }

/-- A section view whose `Source` points to an object that is not a Part
feature. -/
def wrongSourceView : View :=
  { viewOf unitBox ⟨0, 0, 0⟩ with Source := some DocumentObject.Other }

/-- The enclosed area of the wires of the examples: wire `n` encloses the
area `n`. -/
def idArea (w : Wire) : ℚ := w.id

/-- The library of `plainEnv` with a hidden-line run that yields edge 1, a
null edge and edge 2, an edge walker that rebuilds wire 1 and wire 2 from
them, and a strip sort that orders wires by `idArea`, largest first. -/
def wireEnv : Env :=
  { plainEnv with
    hlrVCompound := fun _ _ _ _ => Except.ok [some ⟨1⟩, none, some ⟨2⟩]
    edgeWalker := fun es => es.map fun e => ⟨e.id⟩
    sortStrip := fun ws _ => ws.insertionSort fun a b => b.id ≤ a.id }

/-- A planar face in the plane `z = 0`. -/
def flatFace : Face := ⟨7, Surface.Plane ⟨0, 0, 0⟩ ⟨0, 0, 1⟩⟩

/-- A planar face in the plane `z = 0` whose normal points down. -/
def flippedFace : Face := ⟨8, Surface.Plane ⟨1, 1, 0⟩ ⟨0, 0, -1⟩⟩

/-- A cylindrical face. -/
def roundFace : Face := ⟨9, Surface.Other 1⟩

/-! ## Theorems -/

theorem isReallyInBox_iff (v : Vector3d) (bb : BoundBox3d) :
    isReallyInBox v bb = true ↔
      (bb.MinX < v.x ∧ v.x < bb.MaxX) ∧ (bb.MinY < v.y ∧ v.y < bb.MaxY) ∧
        (bb.MinZ < v.z ∧ v.z < bb.MaxZ) := by
  unfold isReallyInBox
  split_ifs with h1 h2 h3
  · simp only [Bool.false_eq_true, false_iff]
    rintro ⟨⟨a, b⟩, -, -⟩
    rcases h1 with h1 | h1 <;> linarith
  · simp only [Bool.false_eq_true, false_iff]
    rintro ⟨-, ⟨a, b⟩, -⟩
    rcases h2 with h2 | h2 <;> linarith
  · simp only [Bool.false_eq_true, false_iff]
    rintro ⟨-, -, ⟨a, b⟩⟩
    rcases h3 with h3 | h3 <;> linarith
  · simp only [not_or, not_le, ge_iff_le] at h1 h2 h3
    simp only [true_iff]
    exact ⟨h1, h2, h3⟩

theorem GetCenter_inBox (bb : BoundBox3d) (hx : bb.MinX < bb.MaxX) (hy : bb.MinY < bb.MaxY)
    (hz : bb.MinZ < bb.MaxZ) : isReallyInBox bb.GetCenter bb = true := by
  rw [isReallyInBox_iff]
  simp only [BoundBox3d.GetCenter]
  refine ⟨⟨?_, ?_⟩, ⟨?_, ?_⟩, ⟨?_, ?_⟩⟩ <;> linarith

theorem projectFace_some_error (env : Env) (f : Face) (c d x : Vector3d) (e : Raised)
    (h : projectFace env (some f) c d x = Except.error e) :
    ∃ m, e = Raised.StandardFailure m := by
  unfold projectFace at h
  simp only at h
  split at h
  · cases h; exact ⟨_, rfl⟩
  · split at h
    · split at h <;> cases h
    · cases h

theorem projectFaces_error (env : Env) (c d x : Vector3d) (fs : List Face) (e : Raised)
    (h : projectFaces env c d x fs = Except.error e) :
    ∃ m, e = Raised.StandardFailure m := by
  induction fs with
  | nil => simp [projectFaces] at h
  | cons f rest ih =>
    unfold projectFaces at h
    split at h
    · cases h
      exact projectFace_some_error env f c d x _ ‹_›
    · split at h
      · cases h
        exact ih ‹_›
      · cases h

/-- The `try` block changes at most the geometry object and `sectionFaces`;
when it raises, `sectionFaces` is untouched and the exception is a
`Standard_Failure`. -/
theorem tryBlock_frame (env : Env) (v : View) (raw : TopoDS_Shape) :
    (tryBlock env v raw).1 =
        { v with geometryObject := (tryBlock env v raw).1.geometryObject,
                 sectionFaces := (tryBlock env v raw).1.sectionFaces } ∧
      (∀ e, (tryBlock env v raw).2 = some e →
        (tryBlock env v raw).1.sectionFaces = v.sectionFaces ∧
          ∃ m, e = Raised.StandardFailure m) := by
  unfold tryBlock
  split
  · exact ⟨rfl, fun e he => ⟨rfl, by cases he; exact ⟨_, rfl⟩⟩⟩
  · split
    · exact ⟨rfl, fun e he => ⟨rfl, by cases he; exact ⟨_, rfl⟩⟩⟩
    · split
      · exact ⟨rfl, fun e he => ⟨rfl, by cases he; exact ⟨_, rfl⟩⟩⟩
      · split
        · exact ⟨rfl, fun e he => ⟨rfl, by cases he; exact ⟨_, rfl⟩⟩⟩
        · simp only
          split
          · exact ⟨rfl, fun e he => ⟨rfl, by cases he; exact ⟨_, rfl⟩⟩⟩
          · split
            · refine ⟨rfl, fun e he => ⟨rfl, ?_⟩⟩
              cases he
              exact projectFaces_error env _ _ _ _ _ ‹_›
            · exact ⟨rfl, fun e he => by cases he⟩

theorem cutSetup_inBox (env : Env) (v : View) (bb : BoundBox3d)
    (h : isReallyInBox v.SectionOrigin bb = true) :
    (cutSetup env v bb).view = v ∧ (cutSetup env v bb).events = [] ∧
      (cutSetup env v bb).plnPnt = v.SectionOrigin := by
  simp [cutSetup, h]

theorem cutSetup_outside (env : Env) (v : View) (bb : BoundBox3d)
    (h : isReallyInBox v.SectionOrigin bb = false) :
    (cutSetup env v bb).view = { v with SectionOrigin := bb.GetCenter } ∧
      (cutSetup env v bb).events =
        [Event.Warning
            ("DVS: Section Plane doesn't intersect part in " ++ v.NameInDocument ++ "\n"),
          Event.Warning "DVS: Using center of bounding box.\n",
          Event.SetSectionOrigin bb.GetCenter] ∧
      (cutSetup env v bb).plnPnt = bb.GetCenter := by
  simp [cutSetup, h]

/-- The final steps return through line 262, set the label to the derived
text and mark the view touched. -/
theorem finish_frame (v : View) (symbol : String) (events : List Event) :
    (finish v symbol events).exit = Exit.Done ∧
      (finish v symbol events).view =
        { v with Label := "Section " ++ symbol ++ "-" ++ symbol, touched := true } ∧
      (∃ extra, (finish v symbol events).events = events ++ extra ∧
        ∀ e ∈ extra, (∃ l, e = Event.SetLabel l) ∨ e = Event.Touch) := by
  unfold finish
  by_cases h : ("Section " ++ symbol ++ "-" ++ symbol) = v.Label
  · simp only [ne_eq, h, not_true_eq_false, ↓reduceIte]
    exact ⟨trivial, trivial, [Event.Touch], rfl, by simp⟩
  · simp only [ne_eq, h, not_false_eq_true, ↓reduceIte]
    exact ⟨trivial, trivial, _, rfl, by simp⟩

/-- The steps after the cut leave through the handler or through the final
return; they change neither the links nor `SectionOrigin`, and they add only
label and touch events. -/
theorem afterCut_frame (env : Env) (s : CutSetup) (symbol : String) (raw : TopoDS_Shape) :
    ((afterCut env s symbol raw).exit = Exit.Done ∨
        ∃ m, (afterCut env s symbol raw).exit = Exit.BRepFailure m) ∧
      (afterCut env s symbol raw).view.SectionOrigin = s.view.SectionOrigin ∧
      (afterCut env s symbol raw).view.Source = s.view.Source ∧
      (afterCut env s symbol raw).view.BaseView = s.view.BaseView ∧
      (∃ extra, (afterCut env s symbol raw).events = s.events ++ extra ∧
        ∀ e ∈ extra, (∃ l, e = Event.SetLabel l) ∨ e = Event.Touch) := by
  have hf := tryBlock_frame env (configureGeometry s.view) raw
  unfold afterCut
  split
  next v2 msg heq =>
    rw [heq] at hf
    refine ⟨Or.inr ⟨msg, rfl⟩, ?_, ?_, ?_, [], by simp, by simp⟩ <;>
      · simp only at hf ⊢
        rw [hf.1]
        rfl
  next v2 e hne heq =>
    rw [heq] at hf
    obtain ⟨m, hm⟩ := (hf.2 e rfl).2
    exact absurd hm (hne m)
  next v2 heq =>
    rw [heq] at hf
    simp only at hf
    obtain ⟨h1, h2, extra, h3, h4⟩ := finish_frame v2 symbol s.events
    refine ⟨Or.inl h1, ?_, ?_, ?_, extra, h3, h4⟩ <;>
      · rw [h2, hf.1]
        rfl

/-- With a Part source holding a non-null shape and a `DrawViewPart` base,
`execute` is the prism setup followed by the null-face test, the cut and the
steps after it. -/
theorem execute_valid (env : Env) (v : View) (faces : List Face) (bb : BoundBox3d)
    (symbol : String)
    (hS : v.Source = some (DocumentObject.PartFeature (some faces) bb))
    (hB : v.BaseView = some (DocumentObject.DrawViewPart symbol)) :
    execute env v =
      if env.makeFaceIsNull (cutSetup env v bb).prism.base then
        { exit := Exit.ProjFaceNull, view := (cutSetup env v bb).view,
          events := (cutSetup env v bb).events }
      else
        match env.cut (some faces) (cutSetup env v bb).prism with
        | none =>
          { exit := Exit.CutFailed, view := (cutSetup env v bb).view,
            events := (cutSetup env v bb).events }
        | some rawShape => afterCut env (cutSetup env v bb) symbol rawShape := by
  unfold execute
  rw [hS, hB]

/-- With a valid configuration, whatever the library does, the view after
`execute` holds the origin kept or substituted by the containment check. -/
theorem execute_valid_origin (env : Env) (v : View) (faces : List Face) (bb : BoundBox3d)
    (symbol : String)
    (hS : v.Source = some (DocumentObject.PartFeature (some faces) bb))
    (hB : v.BaseView = some (DocumentObject.DrawViewPart symbol)) :
    (execute env v).view.SectionOrigin = (cutSetup env v bb).view.SectionOrigin ∧
      (execute env v).view.Source = v.Source ∧
      (execute env v).view.BaseView = v.BaseView := by
  have hsrc : (cutSetup env v bb).view.Source = v.Source ∧
      (cutSetup env v bb).view.BaseView = v.BaseView := by
    cases h : isReallyInBox v.SectionOrigin bb
    · rw [(cutSetup_outside env v bb h).1]; exact ⟨rfl, rfl⟩
    · rw [(cutSetup_inBox env v bb h).1]; exact ⟨rfl, rfl⟩
  rw [execute_valid env v faces bb symbol hS hB]
  split
  · exact ⟨rfl, hsrc⟩
  · split
    · exact ⟨rfl, hsrc⟩
    · have := afterCut_frame env (cutSetup env v bb) symbol ‹_›
      exact ⟨this.2.1, this.2.2.1.trans hsrc.1, this.2.2.2.1.trans hsrc.2⟩

/-- C1: `isReallyInBox v bb` is true exactly when `v` is strictly between
`Min` and `Max` of the box on every axis; a point with a coordinate equal to
the corresponding `Min` or `Max` is reported as not inside. -/
theorem C1_isReallyInBox_strict (v : Vector3d) (bb : BoundBox3d) :
    (isReallyInBox v bb = true ↔
      (bb.MinX < v.x ∧ v.x < bb.MaxX) ∧ (bb.MinY < v.y ∧ v.y < bb.MaxY) ∧
        (bb.MinZ < v.z ∧ v.z < bb.MaxZ)) ∧
    ((v.x = bb.MinX ∨ v.x = bb.MaxX ∨ v.y = bb.MinY ∨ v.y = bb.MaxY ∨
        v.z = bb.MinZ ∨ v.z = bb.MaxZ) → isReallyInBox v bb = false) := by
  refine ⟨isReallyInBox_iff v bb, fun h => ?_⟩
  rw [← Bool.not_eq_true, isReallyInBox_iff]
  rintro ⟨⟨a1, a2⟩, ⟨b1, b2⟩, ⟨c1, c2⟩⟩
  rcases h with h | h | h | h | h | h <;> linarith

/-- C1 at the top face of `[0,1]^3`: the point `(0,0,1)` is not inside. -/
theorem C1_isReallyInBox_strict_witness :
    isReallyInBox ⟨0, 0, 1⟩ unitBox = false :=
  (C1_isReallyInBox_strict ⟨0, 0, 1⟩ unitBox).2 (Or.inl rfl)

/-- C2: for a Part source with a non-null shape and a `DrawViewPart` base,
`execute` leaves `SectionOrigin` unchanged when it is strictly inside the
bounding box; otherwise it writes the bounding-box centre to `SectionOrigin`
and goes on with the pipeline: it never leaves through a configuration or
empty-shape return, and when the prism face is not null, the cut is done and
the `try` block raises nothing it leaves through the final return. -/
theorem C2_origin_kept_or_centre (env : Env) (v : View) (faces : List Face)
    (bb : BoundBox3d) (symbol : String)
    (hS : v.Source = some (DocumentObject.PartFeature (some faces) bb))
    (hB : v.BaseView = some (DocumentObject.DrawViewPart symbol)) :
    (isReallyInBox v.SectionOrigin bb = true →
        (execute env v).view.SectionOrigin = v.SectionOrigin) ∧
    (isReallyInBox v.SectionOrigin bb = false →
        (execute env v).view.SectionOrigin = bb.GetCenter ∧
        ((execute env v).exit = Exit.ProjFaceNull ∨ (execute env v).exit = Exit.CutFailed ∨
          (∃ m, (execute env v).exit = Exit.BRepFailure m) ∨
          (execute env v).exit = Exit.Done) ∧
        (∀ raw, env.makeFaceIsNull (cutSetup env v bb).prism.base = false →
          env.cut (some faces) (cutSetup env v bb).prism = some raw →
          (tryBlock env (configureGeometry (cutSetup env v bb).view) raw).2 = none →
          (execute env v).exit = Exit.Done ∧
            (execute env v).exit.toReturn env = some env.drawViewExecute)) := by
  have ho := (execute_valid_origin env v faces bb symbol hS hB).1
  have hv := execute_valid env v faces bb symbol hS hB
  refine ⟨fun h => ?_, fun h => ⟨?_, ?_, ?_⟩⟩
  · rw [ho, (cutSetup_inBox env v bb h).1]
  · rw [ho, (cutSetup_outside env v bb h).1]
  · rw [hv]
    split
    · exact Or.inl rfl
    · split
      · exact Or.inr (Or.inl rfl)
      · rcases (afterCut_frame env (cutSetup env v bb) symbol ‹_›).1 with h1 | h1
        · exact Or.inr (Or.inr (Or.inr h1))
        · exact Or.inr (Or.inr (Or.inl h1))
  · intro raw hnull hcut htry
    have hdone : (execute env v).exit = Exit.Done := by
      rw [hv, hnull, hcut]
      simp only [Bool.false_eq_true, ↓reduceIte]
      unfold afterCut
      split
      next v2 msg heq => rw [heq] at htry; cases htry
      next v2 e hne heq => rw [heq] at htry; cases htry
      next v2 heq => exact (finish_frame v2 symbol _).1
    exact ⟨hdone, by rw [hdone]; rfl⟩

/-- C2 on the box `[0,1]^3` with `SectionOrigin = (0,0,1)` on its top face:
the origin is not strictly inside and `execute` rewrites it to the centre
`(1/2, 1/2, 1/2)`. -/
theorem C2_origin_kept_or_centre_witness :
    isReallyInBox (viewOf unitBox ⟨0, 0, 1⟩).SectionOrigin unitBox = false ∧
      (execute plainEnv (viewOf unitBox ⟨0, 0, 1⟩)).view.SectionOrigin = ⟨1 / 2, 1 / 2, 1 / 2⟩ :=
  ⟨by decide,
    ((C2_origin_kept_or_centre plainEnv (viewOf unitBox ⟨0, 0, 1⟩) [] unitBox "A" rfl rfl).2
      (by decide)).1.trans (by simp [BoundBox3d.GetCenter, unitBox])⟩

/-- C3, refuted as stated: for the flat box `[0,1] x [0,1] x [0,0]` and the
origin `(5,5,5)` the first `execute` writes the centre `(1/2, 1/2, 0)`, the
containment test fails again on it, and a second `execute` warns and writes
`SectionOrigin` once more. -/
theorem C3_counterexample :
    isReallyInBox (viewOf flatBox ⟨5, 5, 5⟩).SectionOrigin flatBox = false ∧
      (execute plainEnv (viewOf flatBox ⟨5, 5, 5⟩)).view.SectionOrigin = flatBox.GetCenter ∧
      isReallyInBox (execute plainEnv (viewOf flatBox ⟨5, 5, 5⟩)).view.SectionOrigin flatBox
        = false ∧
      Event.Warning "DVS: Using center of bounding box.\n" ∈
        (execute plainEnv (execute plainEnv (viewOf flatBox ⟨5, 5, 5⟩)).view).events ∧
      Event.SetSectionOrigin flatBox.GetCenter ∈
        (execute plainEnv (execute plainEnv (viewOf flatBox ⟨5, 5, 5⟩)).view).events := by
  have h0 : isReallyInBox (viewOf flatBox ⟨5, 5, 5⟩).SectionOrigin flatBox = false := by decide
  have hc : isReallyInBox flatBox.GetCenter flatBox = false := by
    simp [isReallyInBox, BoundBox3d.GetCenter, flatBox]
  have h1 : (execute plainEnv (viewOf flatBox ⟨5, 5, 5⟩)).view.SectionOrigin
      = flatBox.GetCenter := by
    rw [(execute_valid_origin plainEnv _ [] flatBox "A" rfl rfl).1,
      (cutSetup_outside plainEnv _ flatBox h0).1]
  have hsrc := execute_valid_origin plainEnv (viewOf flatBox ⟨5, 5, 5⟩) [] flatBox "A" rfl rfl
  have h2 : isReallyInBox (execute plainEnv (viewOf flatBox ⟨5, 5, 5⟩)).view.SectionOrigin
      flatBox = false := by rw [h1]; exact hc
  have hv := execute_valid plainEnv (execute plainEnv (viewOf flatBox ⟨5, 5, 5⟩)).view []
    flatBox "A" (hsrc.2.1.trans rfl) (hsrc.2.2.trans rfl)
  have hev := (cutSetup_outside plainEnv _ flatBox h2).2.1
  have hsub : ∀ e ∈ (cutSetup plainEnv (execute plainEnv (viewOf flatBox ⟨5, 5, 5⟩)).view
      flatBox).events,
      e ∈ (execute plainEnv (execute plainEnv (viewOf flatBox ⟨5, 5, 5⟩)).view).events := by
    intro e he
    rw [hv]
    split
    · exact he
    · split
      · exact he
      · obtain ⟨extra, hx, -⟩ := (afterCut_frame plainEnv (cutSetup plainEnv
          (execute plainEnv (viewOf flatBox ⟨5, 5, 5⟩)).view flatBox) "A" ‹_›).2.2.2.2
        rw [hx]
        exact List.mem_append_left _ he
  refine ⟨h0, h1, h2, hsub _ ?_, hsub _ ?_⟩ <;> rw [hev] <;> simp

/-- With a valid configuration and an origin strictly inside the box,
`execute` emits nothing but label and touch events. -/
theorem execute_inBox_events (env : Env) (v : View) (faces : List Face) (bb : BoundBox3d)
    (symbol : String)
    (hS : v.Source = some (DocumentObject.PartFeature (some faces) bb))
    (hB : v.BaseView = some (DocumentObject.DrawViewPart symbol))
    (h : isReallyInBox v.SectionOrigin bb = true) :
    ∀ e ∈ (execute env v).events, (∃ l, e = Event.SetLabel l) ∨ e = Event.Touch := by
  have hev := (cutSetup_inBox env v bb h).2.1
  rw [execute_valid env v faces bb symbol hS hB]
  split
  · simp [hev]
  · split
    · simp [hev]
    · obtain ⟨extra, hx, hall⟩ :=
        (afterCut_frame env (cutSetup env v bb) symbol ‹_›).2.2.2.2
      rw [hx, hev]
      simpa using hall

theorem cornerExtents_oblique :
    cornerExtents ⟨0, 0, 0⟩ ⟨3 / 5, 4 / 5, 0⟩ (bboxCorners cube2)
      = ⟨28 / 25, 21 / 25, 1, 7 / 5⟩ := by
  simp only [cornerExtents, bboxCorners, cube2, List.foldl, extentStep, Vector3d.ProjectToPlane,
    Vector3d.DistanceToPlane, Vector3d.sub, Vector3d.scale, Vector3d.dot, Vector3d.Sqr]
  norm_num [abs_of_nonneg, abs_of_nonpos, max_def]

theorem cornerExtents_centred :
    cornerExtents ⟨0, 0, 0⟩ ⟨1, 0, 0⟩ (bboxCorners centredCube)
      = ⟨0, 1 / 2, 1 / 2, 1 / 2⟩ := by
  simp only [cornerExtents, bboxCorners, centredCube, List.foldl, extentStep,
    Vector3d.ProjectToPlane, Vector3d.DistanceToPlane, Vector3d.sub, Vector3d.scale,
    Vector3d.dot, Vector3d.Sqr]
  norm_num [abs_of_nonneg, abs_of_nonpos, max_def]

/-- C4 at a failing input: for the box `[-1,1]^3`, the origin `(0,0,0)`
strictly inside it and the unit normal `N = (3/5, 4/5, 0)`, `execute` sizes
the prism with `maxParm = 28/25` and `dMax = 7/5`; the box corner
`(-1, 1, 1)` lies on the `+N` side of the plane and, whatever orthonormal
in-plane axes `X`, `Y` the plane has, it is not in the prism of half-side
`28/25`: its in-plane offset has squared length `74/25`, more than
`2 * (28/25)^2`. -/
theorem C4_prism_misses_box_point :
    isReallyInBox obliqueView.SectionOrigin cube2 = true ∧
      inBoundBox cube2 ⟨-1, 1, 1⟩ ∧
      0 ≤ ((⟨-1, 1, 1⟩ : Vector3d).sub obliqueView.SectionOrigin).dot ⟨3 / 5, 4 / 5, 0⟩ ∧
      (cutSetup obliqueEnv obliqueView cube2).pln
        = ⟨⟨0, 0, 0⟩, ⟨4 / 5, -3 / 5, 0⟩, ⟨0, 0, -1⟩, ⟨3 / 5, 4 / 5, 0⟩⟩ ∧
      (cutSetup obliqueEnv obliqueView cube2).plnPnt = ⟨0, 0, 0⟩ ∧
      (cutSetup obliqueEnv obliqueView cube2).extents.maxParm = 28 / 25 ∧
      (cutSetup obliqueEnv obliqueView cube2).extents.dMax = 7 / 5 ∧
      (∀ X Y : Vector3d, isFrame X Y ⟨3 / 5, 4 / 5, 0⟩ →
        ¬ inPrism ⟨0, 0, 0⟩ X Y ⟨3 / 5, 4 / 5, 0⟩
            (cutSetup obliqueEnv obliqueView cube2).extents.maxParm
            (cutSetup obliqueEnv obliqueView cube2).extents.dMax ⟨-1, 1, 1⟩) := by
  have hin : isReallyInBox obliqueView.SectionOrigin cube2 = true := by decide
  have hpln : (cutSetup obliqueEnv obliqueView cube2).pln
      = ⟨⟨0, 0, 0⟩, ⟨4 / 5, -3 / 5, 0⟩, ⟨0, 0, -1⟩, ⟨3 / 5, 4 / 5, 0⟩⟩ := rfl
  have hext : (cutSetup obliqueEnv obliqueView cube2).extents
      = ⟨28 / 25, 21 / 25, 1, 7 / 5⟩ := by
    have : (cutSetup obliqueEnv obliqueView cube2).extents
        = cornerExtents ⟨0, 0, 0⟩ ⟨3 / 5, 4 / 5, 0⟩ (bboxCorners cube2) := by
      have hin2 : isReallyInBox ⟨0, 0, 0⟩ cube2 = true := hin
      simp [cutSetup, hin2, getSectionPlane, obliqueEnv, obliqueView, viewOf]
    rw [this, cornerExtents_oblique]
  have hmax : (cutSetup obliqueEnv obliqueView cube2).extents.maxParm = 28 / 25 := by
    rw [hext]
    norm_num [Extents.maxParm, max_def]
  have hdmax : (cutSetup obliqueEnv obliqueView cube2).extents.dMax = 7 / 5 := by
    rw [hext]
  refine ⟨hin, ?_, ?_, hpln, (cutSetup_inBox _ _ _ hin).2.2, hmax, hdmax, ?_⟩
  · simp only [inBoundBox, cube2]
    norm_num
  · simp only [obliqueView, viewOf, Vector3d.sub, Vector3d.dot]
    norm_num
  · rw [hmax, hdmax]
    rintro X Y ⟨-, hXX, hYY, hXY, hXN, hYN, -⟩ ⟨a, b, t, ha, hb, -, -, hp⟩
    simp only [Vector3d.add, Vector3d.scale, Vector3d.mk.injEq] at hp
    simp only [Vector3d.Sqr, Vector3d.dot] at hXX hYY hXY hXN hYN
    obtain ⟨h1, h2, h3⟩ := hp
    have ht : t = 1 / 5 := by
      linear_combination (-(3 / 5 : ℚ)) * h1 - (4 / 5 : ℚ) * h2 - a * hXN - b * hYN
    have hsq : a ^ 2 + b ^ 2 + t ^ 2 = 3 := by
      linear_combination
        (-(-1 + (0 + X.x * a + Y.x * b + 3 / 5 * t))) * h1
          - (1 + (0 + X.y * a + Y.y * b + 4 / 5 * t)) * h2
          - (1 + (0 + X.z * a + Y.z * b + 0 * t)) * h3
          - a ^ 2 * hXX - b ^ 2 * hYY - 2 * a * b * hXY - 2 * a * t * hXN - 2 * b * t * hYN
    rw [abs_le] at ha hb
    have ha2 : a ^ 2 ≤ (28 / 25) ^ 2 := by nlinarith [ha.1, ha.2]
    have hb2 : b ^ 2 ≤ (28 / 25) ^ 2 := by nlinarith [hb.1, hb.2]
    rw [ht] at hsq
    norm_num at ha2 hb2 hsq
    linarith

/-- C4 at the failing input, for the in-plane axes `X = (4/5, -3/5, 0)` and
`Y = (0, 0, -1)` of the plane `execute` builds there: the corner `(-1, 1, 1)`
is not in the prism. -/
theorem C4_prism_misses_box_point_witness :
    ¬ inPrism ⟨0, 0, 0⟩ ⟨4 / 5, -3 / 5, 0⟩ ⟨0, 0, -1⟩ ⟨3 / 5, 4 / 5, 0⟩
        (cutSetup obliqueEnv obliqueView cube2).extents.maxParm
        (cutSetup obliqueEnv obliqueView cube2).extents.dMax ⟨-1, 1, 1⟩ :=
  C4_prism_misses_box_point.2.2.2.2.2.2.2 ⟨4 / 5, -3 / 5, 0⟩ ⟨0, 0, -1⟩
    (by
      simp only [isFrame, Vector3d.Sqr, Vector3d.dot, Vector3d.cross]
      norm_num)

/-- C5 at a failing input: for the unit cube centred at the origin with
`SectionOrigin = (10, 0, 0)` and normal `(1, 0, 0)`, the containment check
substitutes the centre `(0, 0, 0)`: the corners are projected about it
(`maxParm = dMax = 1/2`), it is written to `SectionOrigin`, and the
intersector's plane passes through it; the square base handed to the prism
builder is nevertheless centred at `(10, 0, 0)`, the location of the plane
read before the substitution. -/
theorem C5_prism_base_keeps_old_origin :
    isReallyInBox outsideView.SectionOrigin centredCube = false ∧
      (cutSetup xNormalEnv outsideView centredCube).plnPnt = ⟨0, 0, 0⟩ ∧
      (cutSetup xNormalEnv outsideView centredCube).view.SectionOrigin = ⟨0, 0, 0⟩ ∧
      (getSectionPlane xNormalEnv (cutSetup xNormalEnv outsideView centredCube).view).Location
        = ⟨0, 0, 0⟩ ∧
      (cutSetup xNormalEnv outsideView centredCube).extents.maxParm = 1 / 2 ∧
      (cutSetup xNormalEnv outsideView centredCube).extents.dMax = 1 / 2 ∧
      (cutSetup xNormalEnv outsideView centredCube).prism.base
        = ⟨⟨10, -1 / 2, 1 / 2⟩, ⟨10, 1 / 2, 1 / 2⟩, ⟨10, 1 / 2, -1 / 2⟩, ⟨10, -1 / 2, -1 / 2⟩⟩ ∧
      (cutSetup xNormalEnv outsideView centredCube).prism.base.centre = ⟨10, 0, 0⟩ ∧
      (cutSetup xNormalEnv outsideView centredCube).prism.extrusion = ⟨1 / 2, 0, 0⟩ := by
  have hout : isReallyInBox outsideView.SectionOrigin centredCube = false := by
    simp only [isReallyInBox, outsideView, viewOf, centredCube]
    norm_num
  obtain ⟨hview, -, hpnt⟩ := cutSetup_outside xNormalEnv outsideView centredCube hout
  have hc : centredCube.GetCenter = ⟨0, 0, 0⟩ := by
    simp only [BoundBox3d.GetCenter, centredCube]
    norm_num
  have hext : (cutSetup xNormalEnv outsideView centredCube).extents
      = ⟨0, 1 / 2, 1 / 2, 1 / 2⟩ := by
    have : (cutSetup xNormalEnv outsideView centredCube).extents
        = cornerExtents centredCube.GetCenter ⟨1, 0, 0⟩ (bboxCorners centredCube) := by
      simp [cutSetup, hout, getSectionPlane, xNormalEnv]
    rw [this, hc, cornerExtents_centred]
  have hmax : (cutSetup xNormalEnv outsideView centredCube).extents.maxParm = 1 / 2 := by
    rw [hext]
    norm_num [Extents.maxParm, max_def]
  have hbase : (cutSetup xNormalEnv outsideView centredCube).prism.base
      = squarePolygon ⟨10, 0, 0⟩ ⟨0, 0, 1⟩ ⟨0, -1, 0⟩
          (cutSetup xNormalEnv outsideView centredCube).extents.maxParm := rfl
  have hpoly : (cutSetup xNormalEnv outsideView centredCube).prism.base
      = ⟨⟨10, -1 / 2, 1 / 2⟩, ⟨10, 1 / 2, 1 / 2⟩, ⟨10, 1 / 2, -1 / 2⟩,
          ⟨10, -1 / 2, -1 / 2⟩⟩ := by
    rw [hbase, hmax]
    simp only [squarePolygon, Vector3d.add, Vector3d.scale]
    norm_num
  have hextr : (cutSetup xNormalEnv outsideView centredCube).prism.extrusion
      = (⟨1, 0, 0⟩ : Vector3d).scale
          (cutSetup xNormalEnv outsideView centredCube).extents.dMax := rfl
  refine ⟨hout, hpnt.trans hc, ?_, ?_, hmax, ?_, hpoly, ?_, ?_⟩
  · rw [hview]; exact hc
  · rw [hview]; exact hc
  · rw [hext]
  · rw [hpoly]
    simp only [Polygon.centre, Vector3d.add, Vector3d.scale]
    norm_num
  · rw [hextr, hext]
    simp only [Vector3d.scale]
    norm_num

/-- Every return before the prism setup leaves the view as it was and
emits nothing. -/
theorem execute_early (env : Env) (v : View)
    (h : ¬ ∃ faces bb symbol, v.Source = some (DocumentObject.PartFeature (some faces) bb) ∧
      v.BaseView = some (DocumentObject.DrawViewPart symbol)) :
    (execute env v).view = v ∧ (execute env v).events = [] ∧
      ((execute env v).exit = Exit.NoSourceOrLink ∨ (execute env v).exit = Exit.SourceNotPart ∨
        (execute env v).exit = Exit.BaseNotDrawViewPart ∨
        (execute env v).exit = Exit.ShapeEmpty) := by
  unfold execute
  split
  · split
    · split
      · split
        · exact ⟨rfl, rfl, Or.inr (Or.inr (Or.inr rfl))⟩
        · exact absurd ⟨_, _, _, ‹_›, ‹_›⟩ h
      · exact ⟨rfl, rfl, Or.inr (Or.inr (Or.inl rfl))⟩
    · exact ⟨rfl, rfl, Or.inr (Or.inl rfl)⟩
  · exact ⟨rfl, rfl, Or.inl rfl⟩

/-- C6, refuted as stated: with `Source` not set, `execute` returns what
`DrawView::execute()` returns, here the standard success result, and no error
object. -/
theorem C6_counterexample :
    unlinkedView.Source = none ∧
      (execute plainEnv unlinkedView).exit = Exit.NoSourceOrLink ∧
      (execute plainEnv unlinkedView).exit.toReturn plainEnv = some ExecReturn.StdReturn ∧
      (execute plainEnv unlinkedView).exit.isFailure = false :=
  ⟨rfl, rfl, rfl, rfl⟩

/-- C6, amended: when `Source` or `BaseView` is missing, `execute` returns
the result of `DrawView::execute()` and builds no error of its own; when both
are set and `Source` is not a Part feature it returns the error "Source
object is not a Part object"; when `Source` is a Part feature and `BaseView`
is not a `DrawViewPart` it returns the error "BaseView object is not a
DrawViewPart object". In all three cases the view (with `SectionOrigin`, the
geometry object and `sectionFaces`) is left as it was and nothing is
emitted. -/
theorem C6_configuration_returns (env : Env) (v : View) :
    ((v.Source = none ∨ v.BaseView = none) →
        (execute env v).exit = Exit.NoSourceOrLink ∧
          (execute env v).exit.toReturn env = some env.drawViewExecute ∧
          (execute env v).view = v ∧ (execute env v).events = []) ∧
    (∀ link base, v.Source = some link → v.BaseView = some base →
        (∀ shape bb, link ≠ DocumentObject.PartFeature shape bb) →
        (execute env v).exit = Exit.SourceNotPart ∧
          (execute env v).exit.toReturn env
            = some (ExecReturn.Error "Source object is not a Part object") ∧
          (execute env v).view = v ∧ (execute env v).events = []) ∧
    (∀ shape bb base, v.Source = some (DocumentObject.PartFeature shape bb) →
        v.BaseView = some base → (∀ symbol, base ≠ DocumentObject.DrawViewPart symbol) →
        (execute env v).exit = Exit.BaseNotDrawViewPart ∧
          (execute env v).exit.toReturn env
            = some (ExecReturn.Error "BaseView object is not a DrawViewPart object") ∧
          (execute env v).view = v ∧ (execute env v).events = []) := by
  refine ⟨fun h => ?_, fun link base hs hb hl => ?_, fun shape bb base hs hb hl => ?_⟩
  · have hexit : (execute env v).exit = Exit.NoSourceOrLink ∧ (execute env v).view = v ∧
        (execute env v).events = [] := by
      unfold execute
      split
      next link base hl hb =>
        rcases h with h | h
        · rw [h] at hl; cases hl
        · rw [h] at hb; cases hb
      · exact ⟨rfl, rfl, rfl⟩
    exact ⟨hexit.1, by rw [hexit.1]; rfl, hexit.2⟩
  · have hexit : (execute env v).exit = Exit.SourceNotPart ∧ (execute env v).view = v ∧
        (execute env v).events = [] := by
      unfold execute
      rw [hs, hb]
      cases link with
      | PartFeature shape bb => exact absurd rfl (hl shape bb)
      | DrawViewPart _ => exact ⟨rfl, rfl, rfl⟩
      | Other => exact ⟨rfl, rfl, rfl⟩
    exact ⟨hexit.1, by rw [hexit.1]; rfl, hexit.2⟩
  · have hexit : (execute env v).exit = Exit.BaseNotDrawViewPart ∧ (execute env v).view = v ∧
        (execute env v).events = [] := by
      unfold execute
      rw [hs, hb]
      cases base with
      | PartFeature _ _ => exact ⟨rfl, rfl, rfl⟩
      | DrawViewPart symbol => exact absurd rfl (hl symbol)
      | Other => exact ⟨rfl, rfl, rfl⟩
    exact ⟨hexit.1, by rw [hexit.1]; rfl, hexit.2⟩

/-- C6 amended, on a view whose `Source` is not a Part feature: the typed
error is returned and the view is unchanged. -/
theorem C6_configuration_returns_witness :
    (execute plainEnv wrongSourceView).exit.toReturn plainEnv
        = some (ExecReturn.Error "Source object is not a Part object") ∧
      (execute plainEnv wrongSourceView).view = wrongSourceView :=
  ⟨((C6_configuration_returns plainEnv wrongSourceView).2.1 DocumentObject.Other
      (DocumentObject.DrawViewPart "A") rfl rfl (fun _ _ h => by cases h)).2.1,
    ((C6_configuration_returns plainEnv wrongSourceView).2.1 DocumentObject.Other
      (DocumentObject.DrawViewPart "A") rfl rfl (fun _ _ h => by cases h)).2.2.1⟩

theorem projectFaces_length (env : Env) (c d x : Vector3d) (fs : List Face)
    (nf : List TopoDS_Face) (h : projectFaces env c d x fs = Except.ok nf) :
    nf.length = fs.length := by
  induction fs generalizing nf with
  | nil =>
    simp only [projectFaces, Except.ok.injEq] at h
    rw [← h]
    rfl
  | cons f rest ih =>
    unfold projectFaces at h
    split at h
    · cases h
    · split at h
      · cases h
      · cases h
        simp only [List.length_cons, Nat.add_right_cancel_iff]
        exact ih _ ‹_›

/-- The result list of the projection loop pairs every face, in order, with
what `projectFace` returned for it. -/
theorem projectFaces_forall₂ (env : Env) (c d x : Vector3d) (fs : List Face)
    (nf : List TopoDS_Face) (h : projectFaces env c d x fs = Except.ok nf) :
    List.Forall₂ (fun f pf => projectFace env (some f) c d x = Except.ok pf) fs nf := by
  induction fs generalizing nf with
  | nil =>
    simp only [projectFaces, Except.ok.injEq] at h
    rw [← h]
    exact List.Forall₂.nil
  | cons f rest ih =>
    unfold projectFaces at h
    split at h
    · cases h
    · split at h
      · cases h
      · cases h
        exact List.Forall₂.cons ‹_› (ih _ ‹_›)

/-- The intersector reads the section plane only: the geometry object of the
view does not matter to it. -/
theorem findSectionPlaneIntersections_geometry (env : Env) (v : View) (go : GeometryObject)
    (raw : TopoDS_Shape) :
    findSectionPlaneIntersections env { v with geometryObject := go } raw
      = findSectionPlaneIntersections env v raw := by
  cases raw <;> rfl

/-- When the `try` block raises nothing, the centroid of the cut result was
found, the section compound of the cut result was mirrored about it, and
`sectionFaces` holds the projection of every face of that mirrored compound,
each projected without an exception. -/
theorem tryBlock_ok (env : Env) (v : View) (raw : TopoDS_Shape)
    (h : (tryBlock env v raw).2 = none) :
    ∃ c ms nf, env.findCentroid raw v.Direction v.XDir = Except.ok c ∧
      env.mirrorShape (findSectionPlaneIntersections env v raw) c v.Scale = Except.ok ms ∧
      projectFaces env c v.Direction v.XDir (facesOf ms) = Except.ok nf ∧
      (tryBlock env v raw).1.sectionFaces = some nf := by
  revert h
  unfold tryBlock
  split
  · intro h; cases h
  next c hc =>
    split
    · intro h; cases h
    · split
      · intro h; cases h
      · split
        · intro h; cases h
        next go2 _ =>
          simp only
          split
          · intro h; cases h
          next ms hms =>
            split
            · intro h; cases h
            next nf hnf =>
              intro _
              rw [findSectionPlaneIntersections_geometry] at hms
              exact ⟨c, ms, nf, hc, hms, hnf, rfl⟩

/-- When the `try` block raises, the geometry object it leaves is the one it
was given, or the one left by `buildGeometryObject`, or the one left by
`extractFaces` after it. -/
theorem tryBlock_raised_geometry (env : Env) (v : View) (raw : TopoDS_Shape) (e : Raised)
    (h : (tryBlock env v raw).2 = some e) :
    (tryBlock env v raw).1.geometryObject = v.geometryObject ∨
      ∃ c ms, env.findCentroid raw v.Direction v.XDir = Except.ok c ∧
        env.mirrorShape raw c v.Scale = Except.ok ms ∧
        ((tryBlock env v raw).1.geometryObject
            = (env.buildGeometryObject v.geometryObject ms c).1 ∨
          (env.handleFaces = true ∧
            (tryBlock env v raw).1.geometryObject
              = (env.extractFaces (env.buildGeometryObject v.geometryObject ms c).1).1)) := by
  revert h
  unfold tryBlock
  split
  · intro _; exact Or.inl rfl
  next c hc =>
    split
    · intro _; exact Or.inl rfl
    next ms hms =>
      split
      next go m hb =>
        intro _
        exact Or.inr ⟨c, ms, hc, hms, Or.inl (by rw [hb])⟩
      next go hb =>
        have hgo : go = (env.buildGeometryObject v.geometryObject ms c).1 := by rw [hb]
        have hstep : ∀ go2 r,
            (if env.handleFaces = true then env.extractFaces go else (go, none)) = (go2, r) →
            go2 = (env.buildGeometryObject v.geometryObject ms c).1 ∨
              (env.handleFaces = true ∧
                go2 = (env.extractFaces (env.buildGeometryObject v.geometryObject ms c).1).1) := by
          intro go2 r hx
          cases hh : env.handleFaces
          · rw [hh] at hx
            simp only [Bool.false_eq_true, ↓reduceIte, Prod.mk.injEq] at hx
            exact Or.inl (hx.1.symm.trans hgo)
          · rw [hh] at hx
            simp only [↓reduceIte] at hx
            exact Or.inr ⟨rfl, by rw [← hgo, hx]⟩
        split
        next go2 m hx =>
          intro _
          exact Or.inr ⟨c, ms, hc, hms, hstep go2 _ hx⟩
        next go2 hx =>
          simp only
          split
          · intro _
            exact Or.inr ⟨c, ms, hc, hms, hstep go2 _ hx⟩
          · split
            · intro _
              exact Or.inr ⟨c, ms, hc, hms, hstep go2 _ hx⟩
            · intro h; cases h

/-- The view handed to the `try` block differs from the view before the
call in `SectionOrigin` at most. -/
theorem cutSetup_view (env : Env) (v : View) (bb : BoundBox3d) :
    (cutSetup env v bb).view
        = { v with SectionOrigin := (cutSetup env v bb).view.SectionOrigin } ∧
      ((cutSetup env v bb).view.SectionOrigin = v.SectionOrigin ∨
        (isReallyInBox v.SectionOrigin bb = false ∧
          (cutSetup env v bb).view.SectionOrigin = bb.GetCenter)) := by
  cases h : isReallyInBox v.SectionOrigin bb
  · rw [(cutSetup_outside env v bb h).1]
    exact ⟨rfl, Or.inr ⟨rfl, rfl⟩⟩
  · rw [(cutSetup_inBox env v bb h).1]
    exact ⟨rfl, Or.inl rfl⟩

/-- The two ways out of the steps after the cut, with the view each one
leaves and the library results it rests on. -/
theorem afterCut_state (env : Env) (s : CutSetup) (symbol : String) (raw : TopoDS_Shape) :
    (∃ m e, (afterCut env s symbol raw).exit = Exit.BRepFailure m ∧
        (tryBlock env (configureGeometry s.view) raw).2 = some e ∧
        (afterCut env s symbol raw).view =
          { s.view with
            geometryObject := (tryBlock env (configureGeometry s.view) raw).1.geometryObject } ∧
        (afterCut env s symbol raw).events = s.events) ∨
      ((afterCut env s symbol raw).exit = Exit.Done ∧
        ∃ go c ms nf,
          env.findCentroid raw s.view.Direction s.view.XDir = Except.ok c ∧
          env.mirrorShape (findSectionPlaneIntersections env s.view raw) c s.view.Scale
            = Except.ok ms ∧
          projectFaces env c s.view.Direction s.view.XDir (facesOf ms) = Except.ok nf ∧
          (afterCut env s symbol raw).view =
            { s.view with
              geometryObject := go, sectionFaces := some nf,
              Label := "Section " ++ symbol ++ "-" ++ symbol, touched := true }) := by
  have hf := tryBlock_frame env (configureGeometry s.view) raw
  have hok := tryBlock_ok env (configureGeometry s.view) raw
  unfold afterCut
  split
  next v2 msg heq =>
    rw [heq] at hf
    refine Or.inl ⟨msg, Raised.StandardFailure msg, rfl, by rw [heq], ?_, rfl⟩
    rw [heq]
    simp only at hf ⊢
    rw [hf.1, (hf.2 _ rfl).1]
    rfl
  next v2 e hne heq =>
    rw [heq] at hf
    obtain ⟨m, hm⟩ := (hf.2 e rfl).2
    exact absurd hm (hne m)
  next v2 heq =>
    rw [heq] at hf hok
    obtain ⟨c, ms, nf, hc, hms, hp, hsf⟩ := hok rfl
    obtain ⟨h1, h2, -⟩ := finish_frame v2 symbol s.events
    rw [show configureGeometry s.view
        = { s.view with geometryObject := (configureGeometry s.view).geometryObject } from rfl,
      findSectionPlaneIntersections_geometry] at hms
    refine Or.inr ⟨h1, v2.geometryObject, c, ms, nf, hc, hms, hp, ?_⟩
    simp only at hf hsf
    rw [h2, hf.1, hsf]
    rfl

/-- With a valid configuration, the return `execute` leaves through, the
view and the events it leaves, and the library results it rests on, by
cases. -/
theorem execute_valid_view (env : Env) (v : View) (faces : List Face) (bb : BoundBox3d)
    (symbol : String)
    (hS : v.Source = some (DocumentObject.PartFeature (some faces) bb))
    (hB : v.BaseView = some (DocumentObject.DrawViewPart symbol)) :
    ((execute env v).exit = Exit.ProjFaceNull ∧
        env.makeFaceIsNull (cutSetup env v bb).prism.base = true ∧
        (execute env v).view = (cutSetup env v bb).view ∧
        (execute env v).events = (cutSetup env v bb).events) ∨
      ((execute env v).exit = Exit.CutFailed ∧
        env.cut (some faces) (cutSetup env v bb).prism = none ∧
        (execute env v).view = (cutSetup env v bb).view ∧
        (execute env v).events = (cutSetup env v bb).events) ∨
      (∃ m raw e, (execute env v).exit = Exit.BRepFailure m ∧
        env.cut (some faces) (cutSetup env v bb).prism = some raw ∧
        (tryBlock env (configureGeometry (cutSetup env v bb).view) raw).2 = some e ∧
        (execute env v).view =
          { (cutSetup env v bb).view with
            geometryObject :=
              (tryBlock env (configureGeometry (cutSetup env v bb).view) raw).1.geometryObject } ∧
        (execute env v).events = (cutSetup env v bb).events) ∨
      ((execute env v).exit = Exit.Done ∧
        ∃ go raw c ms nf,
          env.makeFaceIsNull (cutSetup env v bb).prism.base = false ∧
          env.cut (some faces) (cutSetup env v bb).prism = some raw ∧
          env.findCentroid raw v.Direction v.XDir = Except.ok c ∧
          env.mirrorShape (findSectionPlaneIntersections env (cutSetup env v bb).view raw) c
            v.Scale = Except.ok ms ∧
          projectFaces env c v.Direction v.XDir (facesOf ms) = Except.ok nf ∧
          (execute env v).view =
            { (cutSetup env v bb).view with
              geometryObject := go, sectionFaces := some nf,
              Label := "Section " ++ symbol ++ "-" ++ symbol, touched := true }) := by
  have hd : (cutSetup env v bb).view.Direction = v.Direction ∧
      (cutSetup env v bb).view.XDir = v.XDir ∧ (cutSetup env v bb).view.Scale = v.Scale := by
    rw [(cutSetup_view env v bb).1]
    exact ⟨rfl, rfl, rfl⟩
  rw [execute_valid env v faces bb symbol hS hB]
  split
  · exact Or.inl ⟨rfl, ‹_›, rfl, rfl⟩
  next hnull =>
    split
    · exact Or.inr (Or.inl ⟨rfl, ‹_›, rfl, rfl⟩)
    next raw hcut =>
      rcases afterCut_state env (cutSetup env v bb) symbol raw with
        ⟨m, e, h1, h2, h3, h4⟩ | ⟨h1, go, c, ms, nf, hc, hms, hp, hw⟩
      · exact Or.inr (Or.inr (Or.inl ⟨m, raw, e, h1, hcut, h2, h3, h4⟩))
      · rw [hd.1, hd.2.1] at hc hp
        rw [hd.2.2] at hms
        exact Or.inr (Or.inr (Or.inr ⟨h1, go, raw, c, ms, nf, by simpa using hnull, hcut, hc, hms,
          hp, hw⟩))

/-- C7: when the cutter reports the cut as not done, `execute` returns the
failure "Section cut has failed"; on every return other than the final one
(configuration return, empty shape, null prism face, cut failure, caught BRep
exception) `sectionFaces` is what it was before the call; and when `execute`
leaves through the final return, the cut was done with some result `raw`,
its centroid `c` was found, the section compound of `raw` was mirrored about
`c` into `ms`, and `sectionFaces` holds, face by face and in order, what
`projectFace` returned without an exception for every face of `ms` (no face
when `ms` is null). -/
theorem C7_sectionFaces_kept_on_failure (env : Env) (v : View) :
    (∀ faces bb symbol, v.Source = some (DocumentObject.PartFeature (some faces) bb) →
        v.BaseView = some (DocumentObject.DrawViewPart symbol) →
        env.makeFaceIsNull (cutSetup env v bb).prism.base = false →
        env.cut (some faces) (cutSetup env v bb).prism = none →
        (execute env v).exit.toReturn env = some (ExecReturn.Error "Section cut has failed") ∧
          (execute env v).view.sectionFaces = v.sectionFaces) ∧
    ((execute env v).exit ≠ Exit.Done →
        (execute env v).view.sectionFaces = v.sectionFaces) ∧
    ((execute env v).exit = Exit.Done →
        ∃ faces bb symbol raw c ms nf,
          v.Source = some (DocumentObject.PartFeature (some faces) bb) ∧
          v.BaseView = some (DocumentObject.DrawViewPart symbol) ∧
          env.makeFaceIsNull (cutSetup env v bb).prism.base = false ∧
          env.cut (some faces) (cutSetup env v bb).prism = some raw ∧
          env.findCentroid raw v.Direction v.XDir = Except.ok c ∧
          env.mirrorShape (findSectionPlaneIntersections env (cutSetup env v bb).view raw) c
            v.Scale = Except.ok ms ∧
          (ms = none → nf = []) ∧
          (∀ fs, ms = some fs →
            nf.length = fs.length ∧
              List.Forall₂
                (fun f pf => projectFace env (some f) c v.Direction v.XDir = Except.ok pf) fs nf) ∧
          (execute env v).view.sectionFaces = some nf) := by
  have key : ((execute env v).exit ≠ Exit.Done →
        (execute env v).view.sectionFaces = v.sectionFaces) ∧
      ((execute env v).exit = Exit.Done →
        ∃ faces bb symbol raw c ms nf,
          v.Source = some (DocumentObject.PartFeature (some faces) bb) ∧
          v.BaseView = some (DocumentObject.DrawViewPart symbol) ∧
          env.makeFaceIsNull (cutSetup env v bb).prism.base = false ∧
          env.cut (some faces) (cutSetup env v bb).prism = some raw ∧
          env.findCentroid raw v.Direction v.XDir = Except.ok c ∧
          env.mirrorShape (findSectionPlaneIntersections env (cutSetup env v bb).view raw) c
            v.Scale = Except.ok ms ∧
          (ms = none → nf = []) ∧
          (∀ fs, ms = some fs →
            nf.length = fs.length ∧
              List.Forall₂
                (fun f pf => projectFace env (some f) c v.Direction v.XDir = Except.ok pf) fs nf) ∧
          (execute env v).view.sectionFaces = some nf) := by
    by_cases hv : ∃ faces bb symbol,
        v.Source = some (DocumentObject.PartFeature (some faces) bb) ∧
          v.BaseView = some (DocumentObject.DrawViewPart symbol)
    · obtain ⟨faces, bb, symbol, hS, hB⟩ := hv
      have hsf : (cutSetup env v bb).view.sectionFaces = v.sectionFaces := by
        rw [(cutSetup_view env v bb).1]
      rcases execute_valid_view env v faces bb symbol hS hB with
        ⟨he, -, hw, -⟩ | ⟨he, -, hw, -⟩ | ⟨m, raw, e, he, -, -, hw, -⟩ |
          ⟨he, go, raw, c, ms, nf, hnull, hcut, hc, hms, hp, hw⟩
      · exact ⟨fun _ => by rw [hw, hsf], fun h => by rw [he] at h; cases h⟩
      · exact ⟨fun _ => by rw [hw, hsf], fun h => by rw [he] at h; cases h⟩
      · exact ⟨fun _ => by rw [hw]; exact hsf, fun h => by rw [he] at h; cases h⟩
      · exact ⟨fun h => absurd he h, fun _ => ⟨faces, bb, symbol, raw, c, ms, nf, hS, hB, hnull,
          hcut, hc, hms,
          fun hn => by
            rw [hn] at hp
            simpa [facesOf, projectFaces] using hp.symm,
          fun fs hfs => by
            rw [hfs] at hp
            exact ⟨projectFaces_length _ _ _ _ _ _ hp, projectFaces_forall₂ _ _ _ _ _ _ hp⟩,
          by rw [hw]⟩⟩
    · obtain ⟨hw, -, he⟩ := execute_early env v hv
      refine ⟨fun _ => by rw [hw], fun h => ?_⟩
      rcases he with he | he | he | he <;> rw [he] at h <;> cases h
  refine ⟨fun faces bb symbol hS hB hnull hcut => ?_, key⟩
  have hexit : (execute env v).exit = Exit.CutFailed := by
    rw [execute_valid env v faces bb symbol hS hB, hnull, hcut]
    rfl
  exact ⟨by rw [hexit]; rfl, key.1 (by rw [hexit]; exact fun h => by cases h)⟩

/-- C7 with a cutter that reports "not done", on `[0,1]^3` cut through its
centre: the failure "Section cut has failed" is returned and `sectionFaces`
is unchanged. -/
theorem C7_sectionFaces_kept_on_failure_witness :
    (execute cutFailEnv (viewOf unitBox ⟨1 / 2, 1 / 2, 1 / 2⟩)).exit.toReturn cutFailEnv
        = some (ExecReturn.Error "Section cut has failed") ∧
      (execute cutFailEnv (viewOf unitBox ⟨1 / 2, 1 / 2, 1 / 2⟩)).view.sectionFaces
        = (viewOf unitBox ⟨1 / 2, 1 / 2, 1 / 2⟩).sectionFaces :=
  (C7_sectionFaces_kept_on_failure cutFailEnv (viewOf unitBox ⟨1 / 2, 1 / 2, 1 / 2⟩)).1
    [] unitBox "A" rfl rfl rfl rfl

/-- C8, refuted as stated: (1) on `[0,1]^3` with the origin `(0,0,1)` and a
cutter that reports "not done", `execute` returns the cut failure after it
has rewritten `SectionOrigin` to the centre; (2) on `[-1,1]^3` cut through
its centre with a centroid computation that raises, `execute` returns the
wrapped failure after it has set the tolerance and the scale of the geometry
object. -/
theorem C8_counterexample :
    ((execute cutFailEnv (viewOf unitBox ⟨0, 0, 1⟩)).exit.isFailure = true ∧
        (execute cutFailEnv (viewOf unitBox ⟨0, 0, 1⟩)).view.SectionOrigin
          ≠ (viewOf unitBox ⟨0, 0, 1⟩).SectionOrigin) ∧
      ((execute raisingEnv (viewOf cube2 ⟨0, 0, 0⟩)).exit.isFailure = true ∧
        (execute raisingEnv (viewOf cube2 ⟨0, 0, 0⟩)).view.geometryObject
          ≠ (viewOf cube2 ⟨0, 0, 0⟩).geometryObject) := by
  refine ⟨⟨rfl, ?_⟩, ⟨rfl, ?_⟩⟩
  · have h0 : isReallyInBox (viewOf unitBox ⟨0, 0, 1⟩).SectionOrigin unitBox = false := by
      decide
    rw [(execute_valid_origin cutFailEnv _ [] unitBox "A" rfl rfl).1,
      (cutSetup_outside cutFailEnv _ unitBox h0).1]
    simp only [BoundBox3d.GetCenter, unitBox, viewOf]
    norm_num
  · have h0 : isReallyInBox (viewOf cube2 ⟨0, 0, 0⟩).SectionOrigin cube2 = true := by
      decide
    have hg : (execute raisingEnv (viewOf cube2 ⟨0, 0, 0⟩)).view.geometryObject
        = ⟨1 / 100, 1, 0⟩ := by
      have hcs := (cutSetup_inBox raisingEnv (viewOf cube2 ⟨0, 0, 0⟩) cube2 h0).1
      have hex : (execute raisingEnv (viewOf cube2 ⟨0, 0, 0⟩))
          = afterCut raisingEnv (cutSetup raisingEnv (viewOf cube2 ⟨0, 0, 0⟩) cube2) "A"
              (some []) := by
        rw [execute_valid raisingEnv _ [] cube2 "A" rfl rfl]
        rfl
      rw [hex]
      simp only [afterCut, tryBlock, configureGeometry, hcs]
      rfl
    rw [hg]
    simp only [viewOf]
    norm_num

/-- C8, amended: on every input on which `execute` returns a failure of its
own, `sectionFaces`, `Label` and every other member but `SectionOrigin` and
the geometry object equal their values before the call. After a
configuration or empty-shape failure the whole view is unchanged and nothing
was emitted. After a null prism face, a cut failure or a caught BRep
exception, `SectionOrigin` is the origin of the containment check: when it
was strictly inside the bounding box of the source it is unchanged and
nothing was emitted; when it was not, `SectionOrigin` is the bounding-box
centre, written before the failure together with the two warnings. The
geometry object is unchanged after every failure but the caught BRep
exception; after that one it is the object configured by lines 213-214
(tolerance and scale set from the properties), or what `buildGeometryObject`
made of it, or what `extractFaces` made of that. -/
theorem C8_failure_state (env : Env) (v : View)
    (hfail : (execute env v).exit.isFailure = true) :
    (execute env v).view =
        { v with SectionOrigin := (execute env v).view.SectionOrigin,
                 geometryObject := (execute env v).view.geometryObject } ∧
      (execute env v).view.sectionFaces = v.sectionFaces ∧
      (execute env v).view.Label = v.Label ∧
      (((execute env v).exit = Exit.SourceNotPart ∨
          (execute env v).exit = Exit.BaseNotDrawViewPart ∨
          (execute env v).exit = Exit.ShapeEmpty) →
        (execute env v).view = v ∧ (execute env v).events = []) ∧
      (∀ shape bb, v.Source = some (DocumentObject.PartFeature shape bb) →
        ((execute env v).exit = Exit.ProjFaceNull ∨ (execute env v).exit = Exit.CutFailed ∨
          ∃ m, (execute env v).exit = Exit.BRepFailure m) →
        (execute env v).view.SectionOrigin = effectiveOrigin v bb ∧
          (isReallyInBox v.SectionOrigin bb = true →
            (execute env v).view.SectionOrigin = v.SectionOrigin ∧
              (execute env v).events = []) ∧
          (isReallyInBox v.SectionOrigin bb = false →
            (execute env v).view.SectionOrigin = bb.GetCenter ∧
              (execute env v).events =
                [Event.Warning
                    ("DVS: Section Plane doesn't intersect part in " ++ v.NameInDocument
                      ++ "\n"),
                  Event.Warning "DVS: Using center of bounding box.\n",
                  Event.SetSectionOrigin bb.GetCenter])) ∧
      ((∀ m, (execute env v).exit ≠ Exit.BRepFailure m) →
        (execute env v).view.geometryObject = v.geometryObject) ∧
      (∀ m, (execute env v).exit = Exit.BRepFailure m →
        (execute env v).view.geometryObject
            = { tolerance := v.Tolerance, scale := v.Scale,
                geometry := v.geometryObject.geometry } ∨
          ∃ c ms,
            (execute env v).view.geometryObject
                = (env.buildGeometryObject
                    { tolerance := v.Tolerance, scale := v.Scale,
                      geometry := v.geometryObject.geometry } ms c).1 ∨
              (env.handleFaces = true ∧
                (execute env v).view.geometryObject
                  = (env.extractFaces
                      (env.buildGeometryObject
                        { tolerance := v.Tolerance, scale := v.Scale,
                          geometry := v.geometryObject.geometry } ms c).1).1)) := by
  by_cases hv : ∃ faces bb symbol,
      v.Source = some (DocumentObject.PartFeature (some faces) bb) ∧
        v.BaseView = some (DocumentObject.DrawViewPart symbol)
  · obtain ⟨faces, bb, symbol, hS, hB⟩ := hv
    obtain ⟨hcv, -⟩ := cutSetup_view env v bb
    have hgo : (cutSetup env v bb).view.geometryObject = v.geometryObject := by rw [hcv]
    have hcg : (configureGeometry (cutSetup env v bb).view).geometryObject
        = { tolerance := v.Tolerance, scale := v.Scale,
            geometry := v.geometryObject.geometry } := by
      rw [hcv]; rfl
    have horigin : ∀ (w : View) (ev : List Event),
        w.SectionOrigin = (cutSetup env v bb).view.SectionOrigin →
        ev = (cutSetup env v bb).events →
        ∀ shape bb2, v.Source = some (DocumentObject.PartFeature shape bb2) →
          w.SectionOrigin = effectiveOrigin v bb2 ∧
            (isReallyInBox v.SectionOrigin bb2 = true →
              w.SectionOrigin = v.SectionOrigin ∧ ev = []) ∧
            (isReallyInBox v.SectionOrigin bb2 = false →
              w.SectionOrigin = bb2.GetCenter ∧
                ev = [Event.Warning
                      ("DVS: Section Plane doesn't intersect part in " ++ v.NameInDocument
                        ++ "\n"),
                    Event.Warning "DVS: Using center of bounding box.\n",
                    Event.SetSectionOrigin bb2.GetCenter]) := by
      intro w ev hw hev shape bb2 hS2
      rw [hS] at hS2
      cases hS2
      refine ⟨?_, fun h => ?_, fun h => ?_⟩
      · rw [hw]
        unfold effectiveOrigin
        cases h : isReallyInBox v.SectionOrigin bb
        · rw [(cutSetup_outside env v bb h).1]
          rfl
        · rw [(cutSetup_inBox env v bb h).1]
          rfl
      · obtain ⟨h1, h2, -⟩ := cutSetup_inBox env v bb h
        exact ⟨by rw [hw, h1], by rw [hev, h2]⟩
      · obtain ⟨h1, h2, -⟩ := cutSetup_outside env v bb h
        exact ⟨by rw [hw, h1], by rw [hev, h2]⟩
    rcases execute_valid_view env v faces bb symbol hS hB with
      ⟨he, -, hw, hev⟩ | ⟨he, -, hw, hev⟩ | ⟨m, raw, e, he, -, hraise, hw, hev⟩ | ⟨he, -⟩
    · refine ⟨?_, ?_, ?_, fun h => ?_, fun shape bb2 hS2 _ =>
        horigin _ _ (by rw [hw]) hev shape bb2 hS2, fun _ => ?_, fun m h => ?_⟩
      · rw [hw, hgo]; exact hcv
      · rw [hw, hcv]
      · rw [hw, hcv]
      · rw [he] at h
        rcases h with h | h | h <;> cases h
      · rw [hw, hcv]
      · rw [he] at h
        cases h
    · refine ⟨?_, ?_, ?_, fun h => ?_, fun shape bb2 hS2 _ =>
        horigin _ _ (by rw [hw]) hev shape bb2 hS2, fun _ => ?_, fun m h => ?_⟩
      · rw [hw, hgo]; exact hcv
      · rw [hw, hcv]
      · rw [hw, hcv]
      · rw [he] at h
        rcases h with h | h | h <;> cases h
      · rw [hw, hcv]
      · rw [he] at h
        cases h
    · refine ⟨?_, ?_, ?_, fun h => ?_, fun shape bb2 hS2 _ =>
        horigin _ _ (by rw [hw]) hev shape bb2 hS2, fun h => absurd he (h m), fun _ _ => ?_⟩
      · rw [hw, hcv]
      · rw [hw, hcv]
      · rw [hw, hcv]
      · rw [he] at h
        rcases h with h | h | h <;> cases h
      · have hg : (execute env v).view.geometryObject
            = (tryBlock env (configureGeometry (cutSetup env v bb).view) raw).1.geometryObject := by
          rw [hw]
        rcases tryBlock_raised_geometry env _ raw e hraise with h | ⟨c, ms, -, -, h⟩
        · exact Or.inl (by rw [hg, h, hcg])
        · refine Or.inr ⟨c, ms, ?_⟩
          rw [hcg] at h
          rcases h with h | ⟨hh, h⟩
          · exact Or.inl (hg.trans h)
          · exact Or.inr ⟨hh, hg.trans h⟩
    · rw [he] at hfail
      cases hfail
  · obtain ⟨hw, hev, he⟩ := execute_early env v hv
    refine ⟨by rw [hw], by rw [hw], by rw [hw], fun _ => ⟨hw, hev⟩, fun shape bb hS h => ?_,
      fun _ => by rw [hw], fun m h => ?_⟩
    · rcases he with he | he | he | he <;> rw [he] at h <;>
        rcases h with h | h | ⟨m, h⟩ <;> cases h
    · rcases he with he | he | he | he <;> rw [he] at h <;> cases h

/-- C8 amended, on `[0,1]^3` with the origin `(0,0,1)` and a cutter that
reports "not done": the failure leaves `sectionFaces` and `Label` as they
were, and `SectionOrigin` is the centre of the box written before the
failure. -/
theorem C8_failure_state_witness :
    (execute cutFailEnv (viewOf unitBox ⟨0, 0, 1⟩)).exit.isFailure = true ∧
      (execute cutFailEnv (viewOf unitBox ⟨0, 0, 1⟩)).view.sectionFaces
        = (viewOf unitBox ⟨0, 0, 1⟩).sectionFaces ∧
      (execute cutFailEnv (viewOf unitBox ⟨0, 0, 1⟩)).view.Label
        = (viewOf unitBox ⟨0, 0, 1⟩).Label ∧
      (execute cutFailEnv (viewOf unitBox ⟨0, 0, 1⟩)).view.SectionOrigin = unitBox.GetCenter :=
  ⟨rfl, (C8_failure_state cutFailEnv (viewOf unitBox ⟨0, 0, 1⟩) rfl).2.1,
    (C8_failure_state cutFailEnv (viewOf unitBox ⟨0, 0, 1⟩) rfl).2.2.1,
    (((C8_failure_state cutFailEnv (viewOf unitBox ⟨0, 0, 1⟩) rfl).2.2.2.2.1 (some []) unitBox
      rfl (Or.inr (Or.inl rfl))).2.2 (by decide)).1⟩

theorem sectionStep_eq (env : Env) (pln : gp_Pln) (acc : List Face) (f : Face) :
    sectionStep env pln acc f = acc ++ (if acceptsFace env pln f then [f] else []) := by
  unfold sectionStep acceptsFace gp_Pln.Contains gp_Dir_IsParallel
  split
  · split <;> simp_all
  · simp

theorem foldl_sectionStep (env : Env) (pln : gp_Pln) (faces acc : List Face) :
    faces.foldl (sectionStep env pln) acc = acc ++ faces.filter (acceptsFace env pln) := by
  induction faces generalizing acc with
  | nil => simp
  | cons f rest ih =>
    rw [List.foldl_cons, ih, sectionStep_eq, List.filter_cons]
    split <;> simp

theorem cross_neg_self (n : Vector3d) : ((n.scale (-1)).cross n).Sqr = 0 := by
  simp only [Vector3d.Sqr, Vector3d.dot, Vector3d.cross, Vector3d.scale]
  ring

/-- C9: `findSectionPlaneIntersections` returns a null compound with no
faces for a null shape; for a shape with faces `faces` it returns exactly the
faces accepted by the test of the spec, in enumeration order: a face is in
the result iff it is a face of the shape, planar, with the location of its
plane within the linear tolerance of the section plane and its axis parallel
to the section normal within the angular tolerance; a planar face on the
plane whose axis is the exact opposite of the section normal is accepted;
no face that is not planar is in the result. -/
theorem C9_section_faces (env : Env) (v : View) :
    (findSectionPlaneIntersections env v none = none ∧
      facesOf (findSectionPlaneIntersections env v none) = []) ∧
    (∀ faces : List Face,
      findSectionPlaneIntersections env v (some faces)
          = some (faces.filter (acceptsFace env (getSectionPlane env v))) ∧
        (facesOf (findSectionPlaneIntersections env v (some faces))).Sublist faces ∧
        (∀ f, f ∈ facesOf (findSectionPlaneIntersections env v (some faces)) ↔
          f ∈ faces ∧ ∃ loc axis, f.surface = Surface.Plane loc axis ∧
            |(getSectionPlane env v).Axis.dot (loc.sub v.SectionOrigin)| ≤ env.Confusion ∧
            (axis.cross (getSectionPlane env v).Axis).Sqr ≤ env.sinAngular ^ 2) ∧
        (∀ f ∈ faces, ∀ loc,
          f.surface = Surface.Plane loc ((getSectionPlane env v).Axis.scale (-1)) →
          |(getSectionPlane env v).Axis.dot (loc.sub v.SectionOrigin)| ≤ env.Confusion →
          f ∈ facesOf (findSectionPlaneIntersections env v (some faces))) ∧
        (∀ f k, f.surface = Surface.Other k →
          f ∉ facesOf (findSectionPlaneIntersections env v (some faces)))) := by
  refine ⟨⟨rfl, rfl⟩, fun faces => ?_⟩
  have heq : findSectionPlaneIntersections env v (some faces)
      = some (faces.filter (acceptsFace env (getSectionPlane env v))) := by
    simp only [findSectionPlaneIntersections, foldl_sectionStep, List.nil_append]
  have hmem : ∀ f, f ∈ facesOf (findSectionPlaneIntersections env v (some faces)) ↔
      f ∈ faces ∧ ∃ loc axis, f.surface = Surface.Plane loc axis ∧
        |(getSectionPlane env v).Axis.dot (loc.sub v.SectionOrigin)| ≤ env.Confusion ∧
        (axis.cross (getSectionPlane env v).Axis).Sqr ≤ env.sinAngular ^ 2 := by
    intro f
    rw [heq]
    simp only [facesOf, List.mem_filter]
    refine and_congr_right fun _ => ?_
    unfold acceptsFace
    split
    next loc axis hs =>
      simp only [Bool.and_eq_true, decide_eq_true_eq]
      constructor
      · intro h
        exact ⟨loc, axis, hs, h⟩
      · rintro ⟨loc2, axis2, h2, h⟩
        rw [hs] at h2
        cases h2
        exact h
    next k hs =>
      simp only [Bool.false_eq_true, false_iff]
      rintro ⟨loc2, axis2, h2, -⟩
      rw [hs] at h2
      cases h2
  refine ⟨heq, ?_, hmem, ?_, ?_⟩
  · rw [heq]
    exact List.filter_sublist faces
  · intro f hf loc hs hloc
    rw [hmem]
    exact ⟨hf, loc, _, hs, hloc, by rw [cross_neg_self]; positivity⟩
  · intro f k hs hin
    rw [hmem] at hin
    obtain ⟨-, loc, axis, h2, -⟩ := hin
    rw [hs] at h2
    cases h2

/-- C9 on a shape with a face in the section plane `z = 0`, a face in that
plane with the opposite normal and a cylindrical face, for the plane through
`(0,0,0)` with normal `(0,0,1)`: the flipped face is among the section
faces. -/
theorem C9_section_faces_witness :
    flippedFace ∈ facesOf (findSectionPlaneIntersections plainEnv (viewOf unitBox ⟨0, 0, 0⟩)
      (some [flatFace, flippedFace, roundFace])) :=
  ((C9_section_faces plainEnv (viewOf unitBox ⟨0, 0, 0⟩)).2
      [flatFace, flippedFace, roundFace]).2.2.2.1 flippedFace (by simp) ⟨1, 1, 0⟩
    (by simp [flippedFace, getSectionPlane, plainEnv, viewOf, Vector3d.scale])
    (by simp [getSectionPlane, plainEnv, viewOf, Vector3d.dot, Vector3d.sub])

/-- C10: a null input face makes `projectFace` raise; when the hidden-line
run returns, `projectFace` returns a null face if the edge walker finds no
wire or the sorted list is empty; and when the edge walker finds `n > 0`
wires and `sortStrip` returns a permutation of them ordered by enclosed area,
largest first, the face is built with one outer wire, the first of the
sorted list, whose area is at least that of every wire found, and with the
remaining `n - 1` wires as holes, in sorted order. -/
theorem C10_projectFace_assembly (env : Env) (area : Wire → ℚ) (c d x : Vector3d) :
    projectFace env none c d x
        = Except.error (Raised.BaseException "DrawViewSection::projectFace - input Face is NULL") ∧
    (∀ (f : Face) (hardEdges : List (Option Edge)),
      env.hlrVCompound f c d x = Except.ok hardEdges →
      (env.edgeWalker (hardEdges.filterMap id) = [] →
        projectFace env (some f) c d x = Except.ok none) ∧
      (env.sortStrip (env.edgeWalker (hardEdges.filterMap id)) true = [] →
        projectFace env (some f) c d x = Except.ok none) ∧
      (env.edgeWalker (hardEdges.filterMap id) ≠ [] →
        (env.sortStrip (env.edgeWalker (hardEdges.filterMap id)) true).Perm
          (env.edgeWalker (hardEdges.filterMap id)) →
        (env.sortStrip (env.edgeWalker (hardEdges.filterMap id)) true).Sorted
          (fun a b => area b ≤ area a) →
        ∃ outer holes,
          projectFace env (some f) c d x = Except.ok (some { outer := outer, holes := holes }) ∧
          outer :: holes = env.sortStrip (env.edgeWalker (hardEdges.filterMap id)) true ∧
          holes.length = (env.edgeWalker (hardEdges.filterMap id)).length - 1 ∧
          outer ∈ env.edgeWalker (hardEdges.filterMap id) ∧
          (∀ w ∈ env.edgeWalker (hardEdges.filterMap id), area w ≤ area outer) ∧
          (∀ w, w ∈ holes → w ∈ env.edgeWalker (hardEdges.filterMap id)))) := by
  refine ⟨rfl, fun f hardEdges hhlr => ⟨fun hnil => ?_, fun hnil => ?_,
    fun hne hperm hsorted => ?_⟩⟩
  · unfold projectFace
    simp only [hhlr, hnil, List.isEmpty_nil, Bool.not_true, Bool.false_eq_true, ↓reduceIte]
  · unfold projectFace
    simp only [hhlr, hnil]
    split <;> rfl
  · cases hsort : env.sortStrip (env.edgeWalker (hardEdges.filterMap id)) true with
    | nil =>
      rw [hsort] at hperm
      exact absurd hperm.symm.eq_nil hne
    | cons outer holes =>
      rw [hsort] at hperm hsorted
      have hempty : (env.edgeWalker (hardEdges.filterMap id)).isEmpty = false := by
        cases hw : env.edgeWalker (hardEdges.filterMap id) with
        | nil => exact absurd hw hne
        | cons _ _ => rfl
      refine ⟨outer, holes, ?_, rfl, ?_, ?_, ?_, ?_⟩
      · unfold projectFace
        simp only [hhlr, hempty, hsort, Bool.not_false, ↓reduceIte]
      · rw [← hperm.length_eq]
        simp
      · exact hperm.subset (List.mem_cons_self _ _)
      · intro w hw
        rcases List.mem_cons.mp (hperm.symm.subset hw) with h | h
        · rw [h]
        · exact List.rel_of_sorted_cons hsorted w h
      · intro w hw
        exact hperm.subset (List.mem_cons_of_mem _ hw)

/-- C10 on a hidden-line result with edge 1, a null edge and edge 2, from
which the edge walker rebuilds wire 1 and wire 2: the face is built with wire
2, the larger one, as outer wire and wire 1 as its hole. -/
theorem C10_projectFace_assembly_witness :
    ∃ outer holes,
      projectFace wireEnv (some flatFace) ⟨0, 0, 0⟩ ⟨0, 0, 1⟩ ⟨1, 0, 0⟩
          = Except.ok (some { outer := outer, holes := holes }) ∧
        outer :: holes = [⟨2⟩, ⟨1⟩] ∧
        holes.length = 2 - 1 ∧
        outer ∈ [(⟨1⟩ : Wire), ⟨2⟩] ∧
        (∀ w ∈ [(⟨1⟩ : Wire), ⟨2⟩], idArea w ≤ idArea outer) ∧
        (∀ w, w ∈ holes → w ∈ [(⟨1⟩ : Wire), ⟨2⟩]) :=
  ((C10_projectFace_assembly wireEnv idArea ⟨0, 0, 0⟩ ⟨0, 0, 1⟩ ⟨1, 0, 0⟩).2 flatFace
      [some ⟨1⟩, none, some ⟨2⟩] rfl).2.2
    (by decide)
    (List.perm_insertionSort _ _)
    (by
      show List.Sorted (fun a b => idArea b ≤ idArea a) [(⟨2⟩ : Wire), ⟨1⟩]
      simp [idArea])

theorem foldMax_init (g : Vector3d → ℚ) (a b : ℚ) (l : List Vector3d) :
    foldMax g (max a b) l = max a (foldMax g b l) := by
  induction l generalizing b with
  | nil => rfl
  | cons c rest ih =>
    simp only [foldMax, List.foldl_cons] at ih ⊢
    rw [max_assoc, ih]

theorem le_foldMax_init (g : Vector3d → ℚ) (a : ℚ) (l : List Vector3d) :
    a ≤ foldMax g a l := by
  induction l generalizing a with
  | nil => exact le_refl _
  | cons c rest ih =>
    simp only [foldMax, List.foldl_cons] at ih ⊢
    exact le_trans (le_max_left _ _) (ih _)

theorem le_foldMax_of_mem (g : Vector3d → ℚ) (a : ℚ) (l : List Vector3d) (c : Vector3d)
    (hc : c ∈ l) : g c ≤ foldMax g a l := by
  induction l generalizing a with
  | nil => cases hc
  | cons d rest ih =>
    rcases List.mem_cons.mp hc with h | h
    · rw [h]
      exact le_trans (le_max_right _ _) (le_foldMax_init g _ rest)
    · exact ih _ h

/-- The running maximum of a pointwise maximum is the maximum of the running
maxima. -/
theorem foldMax_max (g h : Vector3d → ℚ) (a b : ℚ) (l : List Vector3d) :
    foldMax (fun c => max (g c) (h c)) (max a b) l = max (foldMax g a l) (foldMax h b l) := by
  induction l generalizing a b with
  | nil => rfl
  | cons c rest ih =>
    simp only [foldMax, List.foldl_cons] at ih ⊢
    rw [← ih, max_max_max_comm]

/-- The four running maxima of the loop are four separate running maxima. -/
theorem foldl_extentStep (O N : Vector3d) (acc : Extents) (l : List Vector3d) :
    l.foldl (extentStep O N) acc =
      ⟨foldMax (fun c => |O.x - (c.ProjectToPlane O N).x|) acc.uMax l,
       foldMax (fun c => |O.y - (c.ProjectToPlane O N).y|) acc.vMax l,
       foldMax (fun c => |O.z - (c.ProjectToPlane O N).z|) acc.wMax l,
       foldMax (fun c => c.DistanceToPlane O N) acc.dMax l⟩ := by
  induction l generalizing acc with
  | nil => rfl
  | cons c rest ih =>
    rw [List.foldl_cons, ih]
    rfl

theorem foldMax_attained (g : Vector3d → ℚ) (a : ℚ) (l : List Vector3d) :
    foldMax g a l = a ∨ ∃ c ∈ l, g c = foldMax g a l := by
  induction l generalizing a with
  | nil => exact Or.inl rfl
  | cons d rest ih =>
    simp only [foldMax, List.foldl_cons] at ih ⊢
    rcases ih (max a (g d)) with h | ⟨c, hc, h⟩
    · rcases max_choice a (g d) with hm | hm
      · exact Or.inl (h.trans hm)
      · exact Or.inr ⟨d, List.mem_cons_self _ _, (h.trans hm).symm⟩
    · exact Or.inr ⟨c, List.mem_cons_of_mem _ hc, h⟩

/-- The reference maximum is the running maximum over the seven later
corners, started at the first. -/
theorem maxOverCorners_eq_foldMax (g : Vector3d → ℚ) (bb : BoundBox3d) :
    maxOverCorners g bb
      = foldMax g (g ⟨bb.MinX, bb.MinY, bb.MinZ⟩)
          [⟨bb.MaxX, bb.MinY, bb.MinZ⟩, ⟨bb.MinX, bb.MaxY, bb.MinZ⟩,
           ⟨bb.MaxX, bb.MaxY, bb.MinZ⟩, ⟨bb.MinX, bb.MinY, bb.MaxZ⟩,
           ⟨bb.MaxX, bb.MinY, bb.MaxZ⟩, ⟨bb.MinX, bb.MaxY, bb.MaxZ⟩,
           ⟨bb.MaxX, bb.MaxY, bb.MaxZ⟩] := rfl

/-- The points the loop of `execute` runs over are the corners of the box. -/
theorem mem_bboxCorners_iff (bb : BoundBox3d) (c : Vector3d) :
    c ∈ bboxCorners bb ↔ isCorner bb c := by
  obtain ⟨x, y, z⟩ := c
  simp only [bboxCorners, isCorner, List.mem_cons, Vector3d.mk.injEq, List.mem_singleton,
    List.not_mem_nil, or_false]
  constructor
  · rintro (h | h | h | h | h | h | h | h) <;> obtain ⟨rfl, rfl, rfl⟩ := h <;> simp
  · rintro ⟨hx | hx, hy | hy, hz | hz⟩ <;> subst hx <;> subst hy <;> subst hz <;> simp

/-- The reference maximum is the maximum over the eight corners: it bounds
the value at every corner and is the value at one of them. -/
theorem maxOverCorners_isMax (g : Vector3d → ℚ) (bb : BoundBox3d) :
    (∀ c, isCorner bb c → g c ≤ maxOverCorners g bb) ∧
      ∃ c, isCorner bb c ∧ g c = maxOverCorners g bb := by
  have hcorners : bboxCorners bb
      = ⟨bb.MinX, bb.MinY, bb.MinZ⟩ :: (bboxCorners bb).tail := rfl
  have hdef : maxOverCorners g bb
      = foldMax g (g ⟨bb.MinX, bb.MinY, bb.MinZ⟩) (bboxCorners bb).tail :=
    maxOverCorners_eq_foldMax g bb
  constructor
  · intro c hc
    rw [← mem_bboxCorners_iff, hcorners] at hc
    rw [hdef]
    rcases List.mem_cons.mp hc with h | h
    · rw [h]
      exact le_foldMax_init g _ _
    · exact le_foldMax_of_mem g _ _ c h
  · rw [hdef]
    rcases foldMax_attained g (g ⟨bb.MinX, bb.MinY, bb.MinZ⟩) (bboxCorners bb).tail with
      h | ⟨c, hc, h⟩
    · exact ⟨_, (mem_bboxCorners_iff bb _).mp (by rw [hcorners]; exact List.mem_cons_self _ _),
        h.symm⟩
    · exact ⟨c, (mem_bboxCorners_iff bb c).mp (by rw [hcorners]; exact List.mem_cons_of_mem _ hc),
        h⟩

/-- Starting the three in-plane maxima at 0 gives the reference half-side:
every `|..|` is at least 0. -/
theorem cornerExtents_maxParm (O N : Vector3d) (bb : BoundBox3d) :
    (cornerExtents O N (bboxCorners bb)).maxParm = refMaxParm O N bb := by
  have hcorners : bboxCorners bb
      = ⟨bb.MinX, bb.MinY, bb.MinZ⟩ :: (bboxCorners bb).tail := rfl
  have hstart : ∀ (g : Vector3d → ℚ), (∀ c, 0 ≤ g c) →
      foldMax g 0 (bboxCorners bb)
        = foldMax g (g ⟨bb.MinX, bb.MinY, bb.MinZ⟩) (bboxCorners bb).tail := by
    intro g hg
    rw [hcorners]
    simp only [foldMax, List.foldl_cons, List.tail_cons]
    rw [max_eq_right (hg _)]
  unfold cornerExtents
  rw [foldl_extentStep]
  simp only [Extents.maxParm]
  rw [hstart _ (fun c => abs_nonneg _), hstart _ (fun c => abs_nonneg _),
    hstart _ (fun c => abs_nonneg _), ← foldMax_max, ← foldMax_max]
  rfl

theorem farCorner_isCorner (N : Vector3d) (bb : BoundBox3d) : isCorner bb (farCorner N bb) := by
  unfold farCorner isCorner
  split_ifs <;> simp

theorem farCorner_distance_nonneg (O N : Vector3d) (bb : BoundBox3d)
    (hx : bb.MinX ≤ O.x ∧ O.x ≤ bb.MaxX) (hy : bb.MinY ≤ O.y ∧ O.y ≤ bb.MaxY)
    (hz : bb.MinZ ≤ O.z ∧ O.z ≤ bb.MaxZ) :
    0 ≤ (farCorner N bb).DistanceToPlane O N := by
  have hterm : ∀ (n lo hi o : ℚ), lo ≤ o → o ≤ hi →
      0 ≤ ((if 0 ≤ n then hi else lo) - o) * n := by
    intro n lo hi o h1 h2
    split_ifs with hn
    · exact mul_nonneg (by linarith) hn
    · exact mul_nonneg_of_nonpos_of_nonpos (by linarith) (le_of_lt (not_le.mp hn))
  simp only [Vector3d.DistanceToPlane, Vector3d.dot, Vector3d.sub, farCorner]
  have h1 := hterm N.x bb.MinX bb.MaxX O.x hx.1 hx.2
  have h2 := hterm N.y bb.MinY bb.MaxY O.y hy.1 hy.2
  have h3 := hterm N.z bb.MinZ bb.MaxZ O.z hz.1 hz.2
  linarith

/-- The largest signed corner distance is not negative when the origin is
in the closed box. -/
theorem refDMax_nonneg (O N : Vector3d) (bb : BoundBox3d)
    (hx : bb.MinX ≤ O.x ∧ O.x ≤ bb.MaxX) (hy : bb.MinY ≤ O.y ∧ O.y ≤ bb.MaxY)
    (hz : bb.MinZ ≤ O.z ∧ O.z ≤ bb.MaxZ) : 0 ≤ refDMax O N bb :=
  le_trans (farCorner_distance_nonneg O N bb hx hy hz)
    ((maxOverCorners_isMax (fun c => c.DistanceToPlane O N) bb).1 _ (farCorner_isCorner N bb))

theorem cornerExtents_dMax (O N : Vector3d) (bb : BoundBox3d) :
    (cornerExtents O N (bboxCorners bb)).dMax = max 0 (refDMax O N bb) := by
  have hcorners : bboxCorners bb
      = ⟨bb.MinX, bb.MinY, bb.MinZ⟩ :: (bboxCorners bb).tail := rfl
  unfold cornerExtents
  rw [foldl_extentStep]
  simp only
  rw [hcorners]
  simp only [foldMax, List.foldl_cons, List.tail_cons]
  exact foldMax_init _ 0 _ _

/-- The origin left by the containment check is in the closed box when
`Min <= Max` on every axis. -/
theorem effectiveOrigin_inBox (v : View) (bb : BoundBox3d) (hx : bb.MinX ≤ bb.MaxX)
    (hy : bb.MinY ≤ bb.MaxY) (hz : bb.MinZ ≤ bb.MaxZ) :
    (bb.MinX ≤ (effectiveOrigin v bb).x ∧ (effectiveOrigin v bb).x ≤ bb.MaxX) ∧
      (bb.MinY ≤ (effectiveOrigin v bb).y ∧ (effectiveOrigin v bb).y ≤ bb.MaxY) ∧
      (bb.MinZ ≤ (effectiveOrigin v bb).z ∧ (effectiveOrigin v bb).z ≤ bb.MaxZ) := by
  unfold effectiveOrigin
  split
  next h =>
    obtain ⟨⟨a1, a2⟩, ⟨b1, b2⟩, ⟨c1, c2⟩⟩ := (isReallyInBox_iff _ _).mp h
    exact ⟨⟨le_of_lt a1, le_of_lt a2⟩, ⟨le_of_lt b1, le_of_lt b2⟩, ⟨le_of_lt c1, le_of_lt c2⟩⟩
  next h =>
    simp only [BoundBox3d.GetCenter]
    refine ⟨⟨?_, ?_⟩, ⟨?_, ?_⟩, ⟨?_, ?_⟩⟩ <;> linarith

/-- The signed distance the loop uses is `(c - O) . N` in coordinates. -/
theorem DistanceToPlane_eq_spec (O N c : Vector3d) :
    c.DistanceToPlane O N = specDistance O N c := rfl

/-- For a unit normal, the in-plane extent the loop uses is the extent of
`c - ((c - O) . N) N` about `O`. -/
theorem inPlaneExtent_eq_spec (O N c : Vector3d)
    (hN : N.x * N.x + N.y * N.y + N.z * N.z = 1) :
    inPlaneExtent O N c = specExtent O N c := by
  have hp : c.ProjectToPlane O N = specProjection O N c := by
    simp only [Vector3d.ProjectToPlane, Vector3d.sub, Vector3d.scale, Vector3d.dot,
      Vector3d.Sqr, specProjection, specDistance, hN, div_one, Vector3d.mk.injEq]
    refine ⟨?_, ?_, ?_⟩ <;> ring
  simp only [inPlaneExtent, specExtent, hp]

/-- C11: for a bounding box with `Min <= Max` on every axis, any plane
normal and any `SectionOrigin`, with `O` the origin left by the containment
check (the `SectionOrigin` if strictly inside the box, else the centre),
`execute` projects the corners about `O`; the `maxParm` it computes is the
maximum over the eight corners of the box (every point with each coordinate
the `Min` or the `Max` of its axis) of the largest of `|O.x - c'.x|`,
`|O.y - c'.y|`, `|O.z - c'.z|`: it bounds that value at every corner and is
that value at one corner; the `dMax` it computes is in the same sense the
maximum over the eight corners of the signed distance to the plane,
`(c - O) . N` in coordinates. The start value 0 of the running maxima changes
nothing, because the largest signed corner distance is not negative. The
prism is extruded by that length along the normal. For a normal of length
one the projection is `c' = c - ((c - O) . N) N` in coordinates. -/
theorem C11_prism_sizing_is_corner_maximum (env : Env) (v : View) (bb : BoundBox3d)
    (hx : bb.MinX ≤ bb.MaxX) (hy : bb.MinY ≤ bb.MaxY) (hz : bb.MinZ ≤ bb.MaxZ) :
    (cutSetup env v bb).plnPnt = effectiveOrigin v bb ∧
      (cutSetup env v bb).extents.maxParm
        = refMaxParm (effectiveOrigin v bb) (getSectionPlane env v).Axis bb ∧
      (cutSetup env v bb).extents.dMax
        = refDMax (effectiveOrigin v bb) (getSectionPlane env v).Axis bb ∧
      0 ≤ refDMax (effectiveOrigin v bb) (getSectionPlane env v).Axis bb ∧
      (cutSetup env v bb).prism.extrusion
        = (getSectionPlane env v).Axis.scale
            (refDMax (effectiveOrigin v bb) (getSectionPlane env v).Axis bb) ∧
      ((∀ c, isCorner bb c →
          inPlaneExtent (effectiveOrigin v bb) (getSectionPlane env v).Axis c
            ≤ (cutSetup env v bb).extents.maxParm) ∧
        ∃ c, isCorner bb c ∧
          inPlaneExtent (effectiveOrigin v bb) (getSectionPlane env v).Axis c
            = (cutSetup env v bb).extents.maxParm) ∧
      ((∀ c, isCorner bb c →
          c.DistanceToPlane (effectiveOrigin v bb) (getSectionPlane env v).Axis
            ≤ (cutSetup env v bb).extents.dMax) ∧
        ∃ c, isCorner bb c ∧
          c.DistanceToPlane (effectiveOrigin v bb) (getSectionPlane env v).Axis
            = (cutSetup env v bb).extents.dMax) ∧
      ((∀ c, isCorner bb c →
          specDistance (effectiveOrigin v bb) (getSectionPlane env v).Axis c
            ≤ (cutSetup env v bb).extents.dMax) ∧
        ∃ c, isCorner bb c ∧
          specDistance (effectiveOrigin v bb) (getSectionPlane env v).Axis c
            = (cutSetup env v bb).extents.dMax) ∧
      ((getSectionPlane env v).Axis.x * (getSectionPlane env v).Axis.x
          + (getSectionPlane env v).Axis.y * (getSectionPlane env v).Axis.y
          + (getSectionPlane env v).Axis.z * (getSectionPlane env v).Axis.z = 1 →
        (∀ c, isCorner bb c →
          specExtent (effectiveOrigin v bb) (getSectionPlane env v).Axis c
            ≤ (cutSetup env v bb).extents.maxParm) ∧
        ∃ c, isCorner bb c ∧
          specExtent (effectiveOrigin v bb) (getSectionPlane env v).Axis c
            = (cutSetup env v bb).extents.maxParm) := by
  have hext : (cutSetup env v bb).extents
      = cornerExtents (effectiveOrigin v bb) (getSectionPlane env v).Axis (bboxCorners bb) :=
    rfl
  obtain ⟨ox, oy, oz⟩ := effectiveOrigin_inBox v bb hx hy hz
  have hnn := refDMax_nonneg (effectiveOrigin v bb) (getSectionPlane env v).Axis bb ox oy oz
  have hd : (cutSetup env v bb).extents.dMax
      = refDMax (effectiveOrigin v bb) (getSectionPlane env v).Axis bb := by
    rw [hext, cornerExtents_dMax, max_eq_right hnn]
  have hm : (cutSetup env v bb).extents.maxParm
      = refMaxParm (effectiveOrigin v bb) (getSectionPlane env v).Axis bb := by
    rw [hext, cornerExtents_maxParm]
  have hmaxP : (∀ c, isCorner bb c →
        inPlaneExtent (effectiveOrigin v bb) (getSectionPlane env v).Axis c
          ≤ (cutSetup env v bb).extents.maxParm) ∧
      ∃ c, isCorner bb c ∧
        inPlaneExtent (effectiveOrigin v bb) (getSectionPlane env v).Axis c
          = (cutSetup env v bb).extents.maxParm := by
    rw [hm]
    exact maxOverCorners_isMax _ bb
  have hmaxD : (∀ c, isCorner bb c →
        c.DistanceToPlane (effectiveOrigin v bb) (getSectionPlane env v).Axis
          ≤ (cutSetup env v bb).extents.dMax) ∧
      ∃ c, isCorner bb c ∧
        c.DistanceToPlane (effectiveOrigin v bb) (getSectionPlane env v).Axis
          = (cutSetup env v bb).extents.dMax := by
    rw [hd]
    exact maxOverCorners_isMax _ bb
  refine ⟨rfl, hm, hd, hnn, ?_, hmaxP, hmaxD, ?_, fun hN => ?_⟩
  · rw [← hd]
    rfl
  · simp only [← DistanceToPlane_eq_spec]
    exact hmaxD
  · simp only [← inPlaneExtent_eq_spec _ _ _ hN]
    exact hmaxP

/-- C11 on `[0,1]^3` with the origin `(0,0,1)` on its top face and the
normal `(0,0,1)`: the extrusion length `execute` computes is the largest
signed corner distance to the plane through the centre, `1/2`, and it is not
negative. -/
theorem C11_prism_sizing_is_corner_maximum_witness :
    (cutSetup plainEnv (viewOf unitBox ⟨0, 0, 1⟩) unitBox).extents.dMax
        = refDMax (effectiveOrigin (viewOf unitBox ⟨0, 0, 1⟩) unitBox) ⟨0, 0, 1⟩ unitBox ∧
      0 ≤ refDMax (effectiveOrigin (viewOf unitBox ⟨0, 0, 1⟩) unitBox) ⟨0, 0, 1⟩ unitBox ∧
      (cutSetup plainEnv (viewOf unitBox ⟨0, 0, 1⟩) unitBox).extents.dMax = 1 / 2 :=
  ⟨(C11_prism_sizing_is_corner_maximum plainEnv (viewOf unitBox ⟨0, 0, 1⟩) unitBox
      (by decide) (by decide) (by decide)).2.2.1,
    (C11_prism_sizing_is_corner_maximum plainEnv (viewOf unitBox ⟨0, 0, 1⟩) unitBox
      (by decide) (by decide) (by decide)).2.2.2.1,
    (C11_prism_sizing_is_corner_maximum plainEnv (viewOf unitBox ⟨0, 0, 1⟩) unitBox
      (by decide) (by decide) (by decide)).2.2.1.trans (by
        have ho : effectiveOrigin (viewOf unitBox ⟨0, 0, 1⟩) unitBox = ⟨1 / 2, 1 / 2, 1 / 2⟩ := by
          have h0 : isReallyInBox (viewOf unitBox ⟨0, 0, 1⟩).SectionOrigin unitBox = false := by
            decide
          unfold effectiveOrigin
          rw [h0]
          simp only [Bool.false_eq_true, ↓reduceIte, BoundBox3d.GetCenter, unitBox]
          norm_num
        rw [ho]
        simp only [refDMax, maxOverCorners, Vector3d.DistanceToPlane, Vector3d.sub,
          Vector3d.dot, getSectionPlane, plainEnv, unitBox]
        norm_num [max_def])⟩

/-- The centre of a box is strictly inside it exactly when `Min < Max` on
every axis. -/
theorem GetCenter_inBox_iff (bb : BoundBox3d) :
    isReallyInBox bb.GetCenter bb = true ↔
      (bb.MinX < bb.MaxX ∧ bb.MinY < bb.MaxY ∧ bb.MinZ < bb.MaxZ) := by
  constructor
  · intro h
    rw [isReallyInBox_iff] at h
    simp only [BoundBox3d.GetCenter] at h
    obtain ⟨⟨a1, a2⟩, ⟨b1, b2⟩, ⟨c1, c2⟩⟩ := h
    exact ⟨by linarith, by linarith, by linarith⟩
  · rintro ⟨hx, hy, hz⟩
    exact GetCenter_inBox bb hx hy hz

/-- With a valid configuration, `execute` emits the events of the
containment check first and after them nothing but label and touch events;
the name of the view is unchanged. -/
theorem execute_valid_events (env : Env) (v : View) (faces : List Face) (bb : BoundBox3d)
    (symbol : String)
    (hS : v.Source = some (DocumentObject.PartFeature (some faces) bb))
    (hB : v.BaseView = some (DocumentObject.DrawViewPart symbol)) :
    ∃ extra, (execute env v).events = (cutSetup env v bb).events ++ extra ∧
      ∀ e ∈ extra, (∃ l, e = Event.SetLabel l) ∨ e = Event.Touch := by
  rw [execute_valid env v faces bb symbol hS hB]
  split
  · exact ⟨[], by simp, by simp⟩
  · split
    · exact ⟨[], by simp, by simp⟩
    · exact (afterCut_frame env (cutSetup env v bb) symbol ‹_›).2.2.2.2

/-- With a valid configuration, `execute` leaves the name of the view as it
was. -/
theorem execute_valid_name (env : Env) (v : View) (faces : List Face) (bb : BoundBox3d)
    (symbol : String)
    (hS : v.Source = some (DocumentObject.PartFeature (some faces) bb))
    (hB : v.BaseView = some (DocumentObject.DrawViewPart symbol)) :
    (execute env v).view.NameInDocument = v.NameInDocument := by
  obtain ⟨hcv, -⟩ := cutSetup_view env v bb
  rcases execute_valid_view env v faces bb symbol hS hB with
    ⟨-, -, hw, -⟩ | ⟨-, -, hw, -⟩ | ⟨m, raw, e, -, -, -, hw, -⟩ | ⟨-, go, raw, c, ms, nf, -, -, -,
      -, -, hw⟩ <;> rw [hw, hcv]

/-- C3, amended: for every bounding box and every `SectionOrigin` that
fails strict containment, the first `execute` persists the bounding-box
centre, and a second `execute` on the same source (whatever the library
does) leaves the origin at the centre. When `Min < Max` on every axis, the
containment test succeeds on the persisted origin and the second `execute`
emits no warning and does not write `SectionOrigin` again. When `Min >= Max`
on some axis, the centre itself fails the strict test and the second
`execute` emits the two warnings and writes the centre to `SectionOrigin`
again, before any other event. -/
theorem C3_second_execute_no_replacement (env env2 : Env) (v : View) (faces : List Face)
    (bb : BoundBox3d) (symbol : String)
    (hS : v.Source = some (DocumentObject.PartFeature (some faces) bb))
    (hB : v.BaseView = some (DocumentObject.DrawViewPart symbol))
    (hout : isReallyInBox v.SectionOrigin bb = false) :
    (execute env v).view.SectionOrigin = bb.GetCenter ∧
      (execute env2 (execute env v).view).view.SectionOrigin = bb.GetCenter ∧
      ((bb.MinX < bb.MaxX ∧ bb.MinY < bb.MaxY ∧ bb.MinZ < bb.MaxZ) →
        isReallyInBox (execute env v).view.SectionOrigin bb = true ∧
          (∀ e ∈ (execute env2 (execute env v).view).events,
            (∀ m, e ≠ Event.Warning m) ∧ (∀ p, e ≠ Event.SetSectionOrigin p))) ∧
      (¬ (bb.MinX < bb.MaxX ∧ bb.MinY < bb.MaxY ∧ bb.MinZ < bb.MaxZ) →
        isReallyInBox (execute env v).view.SectionOrigin bb = false ∧
          ∃ extra,
            (execute env2 (execute env v).view).events =
              [Event.Warning
                  ("DVS: Section Plane doesn't intersect part in " ++ v.NameInDocument
                    ++ "\n"),
                Event.Warning "DVS: Using center of bounding box.\n",
                Event.SetSectionOrigin bb.GetCenter] ++ extra ∧
            ∀ e ∈ extra, (∃ l, e = Event.SetLabel l) ∨ e = Event.Touch) := by
  obtain ⟨ho, hs, hb⟩ := execute_valid_origin env v faces bb symbol hS hB
  have h1 : (execute env v).view.SectionOrigin = bb.GetCenter := by
    rw [ho, (cutSetup_outside env v bb hout).1]
  have hS2 := hs.trans hS
  have hB2 := hb.trans hB
  have ho2 := (execute_valid_origin env2 _ faces bb symbol hS2 hB2).1
  refine ⟨h1, ?_, fun hnd => ?_, fun hdeg => ?_⟩
  · rw [ho2]
    cases h : isReallyInBox (execute env v).view.SectionOrigin bb
    · rw [(cutSetup_outside env2 _ bb h).1]
    · rw [(cutSetup_inBox env2 _ bb h).1, h1]
  · have h2 : isReallyInBox (execute env v).view.SectionOrigin bb = true := by
      rw [h1]; exact (GetCenter_inBox_iff bb).mpr hnd
    refine ⟨h2, fun e he => ?_⟩
    rcases execute_inBox_events env2 _ faces bb symbol hS2 hB2 h2 e he with ⟨l, rfl⟩ | rfl
    · exact ⟨fun m => by simp, fun p => by simp⟩
    · exact ⟨fun m => by simp, fun p => by simp⟩
  · have h2 : isReallyInBox (execute env v).view.SectionOrigin bb = false := by
      rw [h1, ← Bool.not_eq_true, GetCenter_inBox_iff]
      exact hdeg
    refine ⟨h2, ?_⟩
    obtain ⟨extra, hx, hall⟩ := execute_valid_events env2 _ faces bb symbol hS2 hB2
    exact ⟨extra, by
      rw [hx, (cutSetup_outside env2 _ bb h2).2.1,
        execute_valid_name env v faces bb symbol hS hB], hall⟩

/-- C3 amended, on `[0,1]^3` with the origin `(0,0,1)`: after the first
`execute` a second one leaves the origin at the centre and emits neither a
warning nor a write to `SectionOrigin`. -/
theorem C3_second_execute_no_replacement_witness :
    (execute plainEnv (execute plainEnv (viewOf unitBox ⟨0, 0, 1⟩)).view).view.SectionOrigin
        = unitBox.GetCenter ∧
      ∀ e ∈ (execute plainEnv (execute plainEnv (viewOf unitBox ⟨0, 0, 1⟩)).view).events,
        (∀ m, e ≠ Event.Warning m) ∧ (∀ p, e ≠ Event.SetSectionOrigin p) :=
  ⟨(C3_second_execute_no_replacement plainEnv plainEnv (viewOf unitBox ⟨0, 0, 1⟩) [] unitBox "A"
      rfl rfl (by decide)).2.1,
    ((C3_second_execute_no_replacement plainEnv plainEnv (viewOf unitBox ⟨0, 0, 1⟩) [] unitBox "A"
      rfl rfl (by decide)).2.2.1 ⟨by decide, by decide, by decide⟩).2⟩

end DrawViewSection
